import Mathlib

/-!
Formal model of the YouSpeak roster & identity lifecycle engine.

The definitions below are a shallow embedding of the Python source:
`app/services/user_service.py`, `app/services/academic_service.py`,
`app/services/classroom_service.py`, the models in `app/models/` and the
identity-creation HTTP endpoints.  UUIDs are modelled as `Nat`, timestamps
as `Nat` ticks (seconds), the database session as an explicit `DB` value
threaded through each operation; a commit/flush is the point where the
new `DB` value is produced, so a transaction is atomic by construction.
Nondeterministic inputs (random suffixes, generated access codes, fresh
primary keys, UUID parsing) are passed in as explicit oracle functions.
-/

set_option maxHeartbeats 1000000

namespace YouSpeak

/-- Roles from `app/models/enums.py` (`UserRole`). -/
inductive UserRole where
  | school_admin
  | teacher
  | student
deriving DecidableEq

/-- A row of the `users` table (`app/models/user.py` with the mixins of
`app/models/base.py`), restricted to the columns the roster engine reads
and writes.  `deleted_at = none` means the identity is live
(`SoftDeleteMixin`). -/
structure User where
  id : Nat
  email : String
  hashed_password : String
  first_name : String
  last_name : String
  school_id : Nat
  role : UserRole
  is_active : Bool
  student_number : Option String
  deleted_at : Option Nat
deriving DecidableEq

/-- Modelled from the spec: `app/models/access_code.py` is not present in
the source tree (only its callers are), so the columns follow spec §3
(`InvitationCode`) together with every column referenced by
`UserService.get_access_code_by_code`, `UserService.create_teacher_with_code`
and the teachers endpoint: `code`, `school_id`, `created_by_admin_id`,
`invited_teacher_id`, `expires_at`, `is_used`, `used_by_teacher_id`.
The spec declares the code string unique; theorems that need uniqueness
take it as an explicit hypothesis. -/
structure TeacherAccessCode where
  code : String
  school_id : Nat
  created_by_admin_id : Nat
  invited_teacher_id : Option Nat
  expires_at : Option Nat
  is_used : Bool
  used_by_teacher_id : Option Nat
deriving DecidableEq

/-- A row of `student_trash` (`app/models/student_trash.py`). -/
structure StudentTrash where
  user_id : Nat
  deleted_at : Nat
  expires_at : Nat
deriving DecidableEq

/-- The relational state touched by the roster engine.  `classes` and
`classrooms` carry `(id, school_id)`; the two association tables carry
`(container_id, user_id)` pairs. -/
structure DB where
  users : List User
  access_codes : List TeacherAccessCode
  trash : List StudentTrash
  classes : List (Nat × Nat)
  class_enrollments : List (Nat × Nat)
  classrooms : List (Nat × Nat)
  classroom_teachers : List (Nat × Nat)
deriving DecidableEq

/-- The empty database. -/
def DB.empty : DB :=
  { users := [], access_codes := [], trash := [], classes := [],
    class_enrollments := [], classrooms := [], classroom_teachers := [] }

/-- 30-day trash retention window of `StudentTrash.expires_at`
(`app/models/student_trash.py:30`), in seconds. -/
def thirty_days : Nat := 30 * 86400

/-- 7-day invitation expiry used when issuing teacher access codes. -/
def seven_days : Nat := 7 * 86400

/-- `app/core/security.py:get_password_hash`: bcrypt is modelled as an
injective tagging of the plaintext; only "a real credential derived from
the supplied secret is stored" matters to the claims. -/
def get_password_hash (password : String) : String :=
  "$2b$12$" ++ password

/-- Replace the first element satisfying `p` (the SQLAlchemy in-place
mutation of a row fetched by a query). -/
def replaceFirst (p : α → Bool) (f : α → α) : List α → List α
  | [] => []
  | a :: l => if p a then f a :: l else a :: replaceFirst p f l

/-- Python `str.lower()` (character-wise; `String.toLower` itself is
byte-position based and does not reduce in the kernel). -/
def sLower (s : String) : String := ⟨s.data.map Char.toLower⟩

/-- Python `str.strip()`: drop whitespace from both ends. -/
def sTrim (s : String) : String :=
  ⟨((s.data.dropWhile Char.isWhitespace).reverse.dropWhile Char.isWhitespace).reverse⟩

/-- Python `f"{n:03d}"` for a nonnegative `n`: the decimal rendering,
zero-padded on the left to width 3. -/
def pad3 (n : Nat) : String :=
  if n < 10 then "00" ++ toString n
  else if n < 100 then "0" ++ toString n
  else toString n

/-- The `f"{year}-"` identifier prefix string. -/
def year_dash (year : Nat) : String := toString year ++ "-"

/-- The Postgres regex `^{year}-\d+$` of
`UserService.generate_next_student_number`: the year prefix followed by a
nonempty run of digits. -/
def matchesYearPattern (year : Nat) (s : String) : Bool :=
  decide (s.data.take (year_dash year).data.length = (year_dash year).data) &&
    !(s.data.drop (year_dash year).data.length).isEmpty &&
    (s.data.drop (year_dash year).data.length).all Char.isDigit

/-- The numeric value of a digit run. -/
def decimalValue (l : List Char) : Nat :=
  l.foldl (fun n c => n * 10 + (c.toNat - 48)) 0

/-- `cast(substring(student_number, start_pos), Integer)`: the numeric
value of the suffix after the `{year}-` prefix (character positions,
exactly as SQL `substring` counts them). -/
def numericSuffix (year : Nat) (s : String) : Nat :=
  decimalValue (s.data.drop (year_dash year).data.length)

/-- The per-row condition and value of the allocator's aggregate query:
this school, a stored identifier matching the pattern, cast to `Integer`. -/
def seqOf (school_id year : Nat) (u : User) : Option Nat :=
  match u.student_number with
  | none => none
  | some s =>
      if decide (u.school_id = school_id) && matchesYearPattern year s then
        some (numericSuffix year s)
      else none

/-- The sequence numbers scanned by the allocator's aggregate query. -/
def matchingSeqs (db : DB) (school_id year : Nat) : List Nat :=
  db.users.filterMap (seqOf school_id year)

/-- `UserService.generate_next_student_number`: `(max_seq or 0) + 1`,
rendered as `f"{year}-{next_seq:03d}"`. -/
def generate_next_student_number (db : DB) (school_id year : Nat) : String :=
  year_dash year ++ pad3 ((matchingSeqs db school_id year).foldl Nat.max 0 + 1)

/-- `select(User).where(User.email == email)` is nonempty: the storage
state the unique index on `users.email` (`app/models/user.py:19`) guards. -/
def emailTaken (db : DB) (email : String) : Bool :=
  db.users.any fun u => decide (u.email = email)

/-- Failure modes of identity creation.  `duplicate_student_number` is the
`ValueError` raised by `UserService.create_user`; `duplicate_email` is the
typed rejection the HTTP endpoints raise after their own
`get_user_by_email` pre-check; `unique_email_violation` is the untyped
storage `IntegrityError` raised when the unique index on `users.email`
is hit at flush/commit time. -/
inductive IdentityError where
  | duplicate_student_number (n : String)
  | duplicate_email
  | unique_email_violation
deriving DecidableEq

/-- `UserService.create_user`.  `year` is the current year read by the
allocator, `new_id` the fresh primary key.  `auto_commit` only chooses
between commit and flush in the source; both persist the row and both
hit the unique email index, so it is not a parameter here. -/
def create_user (db : DB) (email password first_name last_name : String)
    (school_id : Nat) (role : UserRole) (is_active : Bool)
    (student_number : Option String) (year new_id : Nat) :
    Except IdentityError (User × DB) := do
  let sn ←
    if role = UserRole.student then
      match student_number with
      | none => pure (some (generate_next_student_number db school_id year))
      | some n =>
          if db.users.any (fun u =>
              decide (u.school_id = school_id) && decide (u.student_number = some n)) then
            throw (IdentityError.duplicate_student_number n)
          else pure (some n)
    else pure student_number
  let u : User :=
    { id := new_id, email := email, hashed_password := get_password_hash password,
      first_name := first_name, last_name := last_name, school_id := school_id,
      role := role, is_active := is_active,
      student_number := if role = UserRole.student then sn else none,
      deleted_at := none }
  if emailTaken db email then throw IdentityError.unique_email_violation
  else pure (u, { db with users := db.users ++ [u] })

/-- `UserService.create_invited_teacher`: an inactive teacher with a
placeholder credential; the `flush` persists the row, so the unique email
index fires here if violated. -/
def create_invited_teacher (db : DB) (email first_name last_name : String)
    (school_id : Nat) (placeholder_password : String) (new_id : Nat) :
    Except IdentityError (User × DB) :=
  let t : User :=
    { id := new_id, email := email,
      hashed_password := get_password_hash placeholder_password,
      first_name := first_name, last_name := last_name, school_id := school_id,
      role := UserRole.teacher, is_active := false,
      student_number := none, deleted_at := none }
  if emailTaken db email then .error IdentityError.unique_email_violation
  else .ok (t, { db with users := db.users ++ [t] })

/-- The filter of `UserService.get_access_code_by_code`: same code string,
not used, not expired (`expires_at` null or strictly in the future). -/
def codeValid (now : Nat) (code : String) (ac : TeacherAccessCode) : Bool :=
  decide (ac.code = code) && !ac.is_used &&
    (match ac.expires_at with
     | none => true
     | some t => decide (now < t))

/-- `UserService.get_access_code_by_code`. -/
def get_access_code_by_code (db : DB) (code : String) (now : Nat) :
    Option TeacherAccessCode :=
  db.access_codes.find? (codeValid now code)

/-- `UserService.create_teacher_with_code`: consume an access code.
Returns the activated/created teacher (or `none` on the failure paths,
which write nothing) together with the post-transaction state. -/
def create_teacher_with_code (db : DB)
    (code email password first_name last_name : String)
    (now new_id : Nat) : Option User × DB :=
  match db.access_codes.find? (codeValid now code) with
  | none => (none, db)
  | some ac =>
      match ac.invited_teacher_id with
      | some tid =>
          match db.users.find? (fun u => decide (u.id = tid)) with
          | none => (none, db)
          | some t =>
              if t.role ≠ UserRole.teacher then (none, db)
              else if t.email ≠ email then (none, db)
              else
                let t' := { t with hashed_password := get_password_hash password,
                                   is_active := true }
                let ac' := { ac with is_used := true,
                                     used_by_teacher_id := some t.id }
                (some t',
                  { db with
                    users := replaceFirst (fun u => decide (u.id = tid)) (fun _ => t') db.users,
                    access_codes :=
                      replaceFirst (codeValid now code) (fun _ => ac') db.access_codes })
      | none =>
          if emailTaken db email then (none, db)
          else
            let t : User :=
              { id := new_id, email := email,
                hashed_password := get_password_hash password,
                first_name := first_name, last_name := last_name,
                school_id := ac.school_id, role := UserRole.teacher,
                is_active := true, student_number := none, deleted_at := none }
            let ac' := { ac with is_used := true,
                                 used_by_teacher_id := some new_id }
            (some t,
              { db with
                users := db.users ++ [t],
                access_codes :=
                  replaceFirst (codeValid now code) (fun _ => ac') db.access_codes })

/-- The query of `UserService.soft_delete_user`:
`User.id == user_id, User.deleted_at.is_(None)`. -/
def liveWithId (uid : Nat) (u : User) : Bool :=
  decide (u.id = uid) && decide (u.deleted_at = none)

/-- `UserService.soft_delete_user`: stamp `deleted_at`; students
additionally get a `StudentTrash` row whose defaults are
`deleted_at = now`, `expires_at = now + 30 days`. -/
def soft_delete_user (db : DB) (uid now : Nat) : Bool × DB :=
  match db.users.find? (liveWithId uid) with
  | none => (false, db)
  | some u =>
      let u' := { u with deleted_at := some now }
      let users' := replaceFirst (liveWithId uid) (fun _ => u') db.users
      let trash' :=
        if u.role = UserRole.student then
          db.trash ++ [{ user_id := uid, deleted_at := now,
                         expires_at := now + thirty_days }]
        else db.trash
      (true, { db with users := users', trash := trash' })

/-- `UserService.restore_user`: clear `deleted_at` of a trashed identity
and drop its trash record if one exists. -/
def restore_user (db : DB) (uid : Nat) : Bool × DB :=
  match db.users.find? (fun u => decide (u.id = uid)) with
  | none => (false, db)
  | some u =>
      if u.deleted_at = none then (false, db)
      else
        let u' := { u with deleted_at := none }
        (true,
          { db with
            users := replaceFirst (fun x => decide (x.id = uid)) (fun _ => u') db.users,
            trash := db.trash.eraseP (fun t => decide (t.user_id = uid)) })

/-- The loop body of `UserService.cleanup_expired_trash` over the
snapshot of expired records: `db.get(User, record.user_id)`, permanent
delete, `ON DELETE CASCADE` on `student_trash.user_id` removes the trash
rows of the deleted identity. -/
def purgeLoop : List StudentTrash → Nat → DB → Nat × DB
  | [], c, db => (c, db)
  | r :: rs, c, db =>
      match db.users.find? (fun u => decide (u.id = r.user_id)) with
      | none => purgeLoop rs c db
      | some _ =>
          purgeLoop rs (c + 1)
            { db with
              users := db.users.eraseP (fun u => decide (u.id = r.user_id)),
              trash := db.trash.filter (fun t => !decide (t.user_id = r.user_id)) }

/-- `UserService.cleanup_expired_trash`: purge every identity whose trash
record has `expires_at <= now`; returns the purge count. -/
def cleanup_expired_trash (db : DB) (now : Nat) : Nat × DB :=
  purgeLoop (db.trash.filter fun r => decide (r.expires_at ≤ now)) 0 db

/-! ## CSV bulk import machinery (`AcademicService`, `UserService`) -/

/-- A CSV row as `csv.DictReader` yields it: header/value pairs in column
order (Python dicts preserve insertion order). -/
abbrev Row := List (String × String)

/-- The outcome of decoding the upload bytes and parsing them: either the
`UnicodeDecodeError` branch or the parsed row list. -/
inductive CsvInput where
  | decode_failure
  | table (rows : List Row)

/-- The alias table of `AcademicService._normalize_csv_headers`. -/
def csvAliases : List (String × List String) :=
  [("first_name", ["first_name", "firstname", "first name", "given name"]),
   ("last_name", ["last_name", "lastname", "last name", "surname", "family name"]),
   ("email", ["email", "e-mail", "mail"]),
   ("student_number", ["student_number", "student_id", "student id", "student number"]),
   ("classroom_id", ["classroom_id", "classroom", "classroom id"]),
   ("class_id", ["class_id", "class", "class id"])]

/-- `AcademicService._normalize_csv_headers`: for each canonical key, take
the first column whose stripped, lowered header is one of its variants. -/
def normalize_csv_headers (row : Row) : Row :=
  csvAliases.filterMap fun ca =>
    match row.find? (fun kv => (ca.snd.map sLower).contains (sLower (sTrim kv.fst))) with
    | some kv => some (ca.fst, sTrim kv.snd)
    | none => none

/-- `(mapped.get(k) or "").strip()`. -/
def getField (m : Row) (k : String) : String :=
  match m.find? (fun kv => decide (kv.fst = k)) with
  | some kv => sTrim kv.snd
  | none => ""

/-- `f"Row {i+2}: {msg}"` for the 0-based row index `i`. -/
def rowMsg (i : Nat) (msg : String) : String :=
  "Row " ++ (toString (i + 2) ++ (": " ++ msg))

/-- The synthesized placeholder email
`f"{first.lower()}.{last.lower()}.{suffix}@youspeak-dummy.com"`. -/
def placeholderEmail (first_name last_name sfx : String) : String :=
  sLower first_name ++ "." ++ sLower last_name ++ "." ++ sfx ++ "@youspeak-dummy.com"

/-- The pre-scan of both importers: emails of rows that carry first name,
last name and email. -/
def candidate_emails (rows : List Row) : List String :=
  rows.filterMap fun row =>
    let m := normalize_csv_headers row
    if getField m "email" ≠ "" && getField m "first_name" ≠ "" &&
        getField m "last_name" ≠ "" then
      some (getField m "email")
    else none

/-- `UserService.get_existing_emails`: the stored emails among `emails`. -/
def get_existing_emails (db : DB) (emails : List String) : List String :=
  db.users.filterMap fun u =>
    if emails.any (fun e => decide (e = u.email)) then some u.email else none

/-- `UserService.get_users_by_emails`: email-keyed lookup of the stored
users among `emails`. -/
def get_users_by_emails (db : DB) (emails : List String) : List (String × User) :=
  db.users.filterMap fun u =>
    if emails.any (fun e => decide (e = u.email)) then some (u.email, u) else none

/-- `AcademicService.get_class_by_id` (select by primary key only). -/
def get_class_by_id (db : DB) (cid : Nat) : Option (Nat × Nat) :=
  db.classes.find? (fun c => decide (c.fst = cid))

/-- `AcademicService.add_student_to_class` with `auto_commit=False`:
no-op returning `false` when the enrollment already exists. -/
def add_student_to_class (db : DB) (cid sid : Nat) : Bool × DB :=
  if db.class_enrollments.any (fun e => decide (e = (cid, sid))) then (false, db)
  else (true, { db with class_enrollments := db.class_enrollments ++ [(cid, sid)] })

/-- `ClassroomService.add_teacher_to_classroom` with
`skip_user_validation=True, auto_commit=False`: classroom must exist in
this school; an existing membership is left alone. -/
def add_teacher_to_classroom (db : DB) (classroom_id teacher_id school_id : Nat) :
    Bool × DB :=
  match db.classrooms.find? (fun c =>
      decide (c.fst = classroom_id) && decide (c.snd = school_id)) with
  | none => (false, db)
  | some _ =>
      if db.classroom_teachers.any (fun e => decide (e = (classroom_id, teacher_id))) then
        (false, db)
      else
        (true, { db with
          classroom_teachers := db.classroom_teachers ++ [(classroom_id, teacher_id)] })

/-- The accumulating state of the student import loop. -/
structure StudentImportState where
  created : Nat
  enrolled : Nat
  skipped : Nat
  errors : List String
  seen_emails : List String
  existing_users : List (String × User)
  db : DB

/-- The structured result both student import paths return. -/
structure StudentImportResult where
  created : Nat
  enrolled : Nat
  skipped : Nat
  errors : List String
deriving DecidableEq

/-- The row-error text of `import_students_from_csv`: a caught
`ValueError` renders its message, any other exception renders as
`failed to create student - ...` (the storage error text is abstracted). -/
def studentRowErrorText : IdentityError → String
  | .duplicate_student_number n =>
      "Student number " ++ (n ++ " already exists for this school")
  | _ => "failed to create student - IntegrityError"

/-- The `class_id` tail of a student import row: parse the UUID, fetch the
class, require same school, enroll (an existing enrollment counts as
skipped). -/
def student_attach_class (parse_uuid : String → Option Nat) (school_id : Nat)
    (st : StudentImportState) (i : Nat) (class_id_str : String) (student_id : Nat) :
    StudentImportState :=
  if class_id_str = "" then st
  else
    match parse_uuid class_id_str with
    | none => { st with errors := st.errors ++ [rowMsg i "invalid class_id format"] }
    | some cid =>
        match get_class_by_id st.db cid with
        | some c =>
            if c.snd = school_id then
              let (added, db') := add_student_to_class st.db cid student_id
              if added then { st with enrolled := st.enrolled + 1, db := db' }
              else { st with skipped := st.skipped + 1, db := db' }
            else
              { st with errors := st.errors ++ [rowMsg i "invalid or inaccessible class_id"] }
        | none =>
            { st with errors := st.errors ++ [rowMsg i "invalid or inaccessible class_id"] }

/-- The student import row body from the duplicate-in-batch check onward,
once the effective email `em` is fixed (supplied or synthesized). -/
def student_row_resolve (parse_uuid : String → Option Nat)
    (school_id year new_id : Nat) (st : StudentImportState) (i : Nat)
    (em first_name last_name : String) (student_number : Option String)
    (class_id_str : String) : StudentImportState :=
  if st.seen_emails.any (fun e => decide (e = em)) then
    { st with skipped := st.skipped + 1 }
  else
    let st := { st with seen_emails := st.seen_emails ++ [em] }
    match st.existing_users.find? (fun kv => decide (kv.fst = em)) with
    | some kv =>
        if kv.snd.school_id ≠ school_id then
          { st with errors := st.errors ++ [rowMsg i (em ++ " belongs to another school")] }
        else if kv.snd.role ≠ UserRole.student then
          { st with errors := st.errors ++ [rowMsg i (em ++ " is not a student")] }
        else
          student_attach_class parse_uuid school_id st i class_id_str kv.snd.id
    | none =>
        match create_user st.db em "Student123!" first_name last_name school_id
            UserRole.student true student_number year new_id with
        | .error e =>
            { st with errors := st.errors ++ [rowMsg i (studentRowErrorText e)] }
        | .ok (u, db') =>
            let st := { st with
              created := st.created + 1, db := db',
              existing_users := st.existing_users ++ [(em, u)] }
            student_attach_class parse_uuid school_id st i class_id_str u.id

/-- One iteration of the `import_students_from_csv` row loop. -/
def student_import_step (parse_uuid : String → Option Nat)
    (school_id year : Nat) (suffix_gen : Nat → String) (id_gen : Nat → Nat)
    (st : StudentImportState) (i : Nat) (row : Row) : StudentImportState :=
  let m := normalize_csv_headers row
  let first_name := getField m "first_name"
  let last_name := getField m "last_name"
  let email := getField m "email"
  let sn := getField m "student_number"
  if first_name = "" || last_name = "" then
    { st with errors := st.errors ++ [rowMsg i "first_name and last_name required"] }
  else
    let em := if email = "" then placeholderEmail first_name last_name (suffix_gen i)
              else email
    student_row_resolve parse_uuid school_id year (id_gen i) st i em
      first_name last_name (if sn = "" then none else some sn) (getField m "class_id")

/-- The `for i, row in enumerate(rows)` loop of the student importer. -/
def student_import_loop (parse_uuid : String → Option Nat)
    (school_id year : Nat) (suffix_gen : Nat → String) (id_gen : Nat → Nat) :
    Nat → List Row → StudentImportState → StudentImportState
  | _, [], st => st
  | i, row :: rows, st =>
      student_import_loop parse_uuid school_id year suffix_gen id_gen (i + 1) rows
        (student_import_step parse_uuid school_id year suffix_gen id_gen st i row)

/-- `AcademicService.import_students_from_csv`. -/
def import_students_from_csv (db : DB) (school_id : Nat) (input : CsvInput)
    (year : Nat) (suffix_gen : Nat → String) (id_gen : Nat → Nat)
    (parse_uuid : String → Option Nat) : StudentImportResult × DB :=
  match input with
  | .decode_failure =>
      ({ created := 0, enrolled := 0, skipped := 0,
         errors := ["Invalid file encoding. Use UTF-8."] }, db)
  | .table [] =>
      ({ created := 0, enrolled := 0, skipped := 0,
         errors := ["CSV file is empty"] }, db)
  | .table (r :: rs) =>
      let st0 : StudentImportState :=
        { created := 0, enrolled := 0, skipped := 0, errors := [],
          seen_emails := [],
          existing_users := get_users_by_emails db (candidate_emails (r :: rs)),
          db := db }
      let st := student_import_loop parse_uuid school_id year suffix_gen id_gen 0 (r :: rs) st0
      ({ created := st.created, enrolled := st.enrolled, skipped := st.skipped,
         errors := st.errors }, st.db)

/-- The accumulating state of the teacher import loop. -/
structure TeacherImportState where
  created : Nat
  skipped : Nat
  errors : List String
  invitations : List (String × String × String)
  seen_emails : List String
  existing_emails : List String
  db : DB

/-- The structured result of `import_teachers_from_csv`. -/
structure TeacherImportResult where
  created : Nat
  skipped : Nat
  errors : List String
  invitations : List (String × String × String)
deriving DecidableEq

/-- One iteration of the `import_teachers_from_csv` row loop.  The
`create_invited_teacher` flush is not wrapped in a try/except in the
source, so a storage error there propagates (`Except.error`) and would
abort the batch. -/
def teacher_import_step (school_id admin_id now : Nat)
    (code_gen placeholder_gen : Nat → String) (id_gen : Nat → Nat)
    (parse_uuid : String → Option Nat)
    (st : TeacherImportState) (i : Nat) (row : Row) :
    Except IdentityError TeacherImportState :=
  let m := normalize_csv_headers row
  let first_name := getField m "first_name"
  let last_name := getField m "last_name"
  let email := getField m "email"
  if first_name = "" || last_name = "" then
    .ok { st with errors := st.errors ++ [rowMsg i "first_name and last_name required"] }
  else if email = "" then
    .ok { st with errors := st.errors ++ [rowMsg i "email required"] }
  else if st.seen_emails.any (fun e => decide (e = email)) then
    .ok { st with skipped := st.skipped + 1 }
  else
    let st := { st with seen_emails := st.seen_emails ++ [email] }
    if st.existing_emails.any (fun e => decide (e = email)) then
      .ok { st with errors := st.errors ++ [rowMsg i (email ++ " already exists")] }
    else
      let classroom_id_str := getField m "classroom_id"
      let cid? : Except Unit (Option Nat) :=
        if classroom_id_str = "" then .ok none
        else
          match parse_uuid classroom_id_str with
          | none => .error ()
          | some c => .ok (some c)
      match cid? with
      | .error _ =>
          .ok { st with errors := st.errors ++ [rowMsg i "invalid classroom_id"] }
      | .ok cid_opt =>
          match create_invited_teacher st.db email first_name last_name school_id
              (placeholder_gen i) (id_gen i) with
          | .error e => .error e
          | .ok (teacher, db1) =>
              let st := { st with
                db := db1,
                existing_emails := st.existing_emails ++ [email] }
              let code := code_gen i
              let ac : TeacherAccessCode :=
                { code := code, school_id := school_id,
                  created_by_admin_id := admin_id,
                  invited_teacher_id := some teacher.id,
                  expires_at := some (now + seven_days),
                  is_used := false, used_by_teacher_id := none }
              let st := { st with
                          db := { st.db with access_codes := st.db.access_codes ++ [ac] } }
              let st :=
                match cid_opt with
                | none => st
                | some cid =>
                    { st with db := (add_teacher_to_classroom st.db cid teacher.id school_id).snd }
              .ok { st with
                created := st.created + 1,
                invitations := st.invitations ++ [(email, first_name, code)] }

/-- The row loop of the teacher importer, propagating an uncaught
storage error. -/
def teacher_import_loop (school_id admin_id now : Nat)
    (code_gen placeholder_gen : Nat → String) (id_gen : Nat → Nat)
    (parse_uuid : String → Option Nat) :
    Nat → List Row → TeacherImportState → Except IdentityError TeacherImportState
  | _, [], st => .ok st
  | i, row :: rows, st =>
      match teacher_import_step school_id admin_id now code_gen placeholder_gen
          id_gen parse_uuid st i row with
      | .error e => .error e
      | .ok st' =>
          teacher_import_loop school_id admin_id now code_gen placeholder_gen
            id_gen parse_uuid (i + 1) rows st'

/-- `UserService.import_teachers_from_csv`. -/
def import_teachers_from_csv (db : DB) (school_id admin_id : Nat)
    (input : CsvInput) (now : Nat) (code_gen placeholder_gen : Nat → String)
    (id_gen : Nat → Nat) (parse_uuid : String → Option Nat) :
    Except IdentityError (TeacherImportResult × DB) :=
  match input with
  | .decode_failure =>
      .ok ({ created := 0, skipped := 0,
             errors := ["Invalid file encoding. Use UTF-8."], invitations := [] }, db)
  | .table [] =>
      .ok ({ created := 0, skipped := 0,
             errors := ["CSV file is empty"], invitations := [] }, db)
  | .table (r :: rs) =>
      let st0 : TeacherImportState :=
        { created := 0, skipped := 0, errors := [], invitations := [],
          seen_emails := [],
          existing_emails := get_existing_emails db (candidate_emails (r :: rs)),
          db := db }
      match teacher_import_loop school_id admin_id now code_gen placeholder_gen
          id_gen parse_uuid 0 (r :: rs) st0 with
      | .error e => .error e
      | .ok st =>
          .ok ({ created := st.created, skipped := st.skipped,
                 errors := st.errors, invitations := st.invitations }, st.db)

/-- The `create_teacher_invite` endpoint (`app/api/v1/endpoints/teachers.py`):
`get_user_by_email` pre-check raising the typed duplicate rejection, then
invited teacher plus bound access code.  The optional `classroom_ids`
assignment loop is not modelled (not reached by the claims). -/
def create_teacher_invite_endpoint (db : DB) (email first_name last_name : String)
    (admin_id school_id now new_id : Nat) (code placeholder : String) :
    Except IdentityError (String × Nat × DB) :=
  if emailTaken db email then .error IdentityError.duplicate_email
  else
    match create_invited_teacher db email first_name last_name school_id
        placeholder new_id with
    | .error e => .error e
    | .ok (teacher, db1) =>
        let ac : TeacherAccessCode :=
          { code := code, school_id := school_id, created_by_admin_id := admin_id,
            invited_teacher_id := some teacher.id,
            expires_at := some (now + seven_days),
            is_used := false, used_by_teacher_id := none }
        .ok (code, teacher.id,
          { db1 with access_codes := db1.access_codes ++ [ac] })

/-! ## Concrete data used by the witness theorems -/

/-- A live student of school 1 holding the auto-family identifier
`2025-007`. -/
def demoStudent : User :=
  { id := 1, email := "s1@x.com", hashed_password := "h", first_name := "S",
    last_name := "One", school_id := 1, role := UserRole.student,
    is_active := true, student_number := some "2025-007", deleted_at := none }

/-- A live student of school 1 holding a custom (non-numeric-suffix)
identifier. -/
def demoCustomStudent : User :=
  { id := 2, email := "s2@x.com", hashed_password := "h", first_name := "S",
    last_name := "Two", school_id := 1, role := UserRole.student,
    is_active := true, student_number := some "2025-abc", deleted_at := none }

/-- An inactive invited teacher of school 1. -/
def demoInvitedTeacher : User :=
  { id := 5, email := "t@x.com", hashed_password := "$2b$12$ph",
    first_name := "T", last_name := "Cher", school_id := 1,
    role := UserRole.teacher, is_active := false, student_number := none,
    deleted_at := none }

/-- An unused, unexpired access code bound to `demoInvitedTeacher`. -/
def demoBoundCode : TeacherAccessCode :=
  { code := "ABCDEFGH", school_id := 1, created_by_admin_id := 9,
    invited_teacher_id := some 5, expires_at := some 1000, is_used := false,
    used_by_teacher_id := none }

/-- Database holding the two demo students. -/
def demoAllocatorDb : DB :=
  { DB.empty with users := [demoStudent, demoCustomStudent] }

/-- Database holding the invited teacher and the bound code. -/
def demoCodeDb : DB :=
  { DB.empty with users := [demoInvitedTeacher], access_codes := [demoBoundCode] }

/-- `demoInvitedTeacher` after a successful code consumption. -/
def demoActivatedTeacher : User :=
  { demoInvitedTeacher with hashed_password := get_password_hash "pw", is_active := true }

/-- `demoCodeDb` after the successful consumption of `demoBoundCode`. -/
def demoConsumedDb : DB :=
  { demoCodeDb with
    users := [demoActivatedTeacher],
    access_codes := [{ demoBoundCode with is_used := true, used_by_teacher_id := some 5 }] }

/-- Database for the sweep witness: identity 1 has an expired trash
record, identity 2 a future one, identity 5 none. -/
def demoSweepDb : DB :=
  { DB.empty with
    users := [{ demoStudent with deleted_at := some 0 },
              { demoCustomStudent with deleted_at := some 0 },
              demoInvitedTeacher],
    trash := [{ user_id := 1, deleted_at := 0, expires_at := 10 },
              { user_id := 2, deleted_at := 0, expires_at := 1000 }] }

/-- The identity created first in the duplicate-email scenario. -/
def demoDupUser : User :=
  { id := 1, email := "dup@x.com", hashed_password := get_password_hash "pw",
    first_name := "A", last_name := "B", school_id := 1,
    role := UserRole.teacher, is_active := true, student_number := none,
    deleted_at := none }

/-- Database already holding `demoDupUser`. -/
def demoDupDb : DB := { DB.empty with users := [demoDupUser] }

/-- The Alice row of the spec's import scenario. -/
def aliceRow : Row :=
  [("first_name", "Alice"), ("last_name", "Smith"), ("email", "alice@x.com")]

/-- The Bob row of the spec's import scenario: names given, email blank. -/
def bobRow : Row :=
  [("first_name", "Bob"), ("last_name", "Jones"), ("email", "")]

/-- The student created from the Alice row on an empty tenant. -/
def c6_alice_user : User :=
  { id := 100, email := "alice@x.com",
    hashed_password := get_password_hash "Student123!",
    first_name := "Alice", last_name := "Smith", school_id := 7,
    role := UserRole.student, is_active := true,
    student_number := some "2025-001", deleted_at := none }

/-- Database state after the Alice row. -/
def c6_db1 : DB := { DB.empty with users := [c6_alice_user] }

/-- Import-loop state after the Alice row. -/
def c6_st1 : StudentImportState :=
  { created := 1, enrolled := 0, skipped := 0, errors := [],
    seen_emails := ["alice@x.com"],
    existing_users := [("alice@x.com", c6_alice_user)], db := c6_db1 }

/-- The student created from the Bob row, given its effective email. -/
def c6_bob_user (em : String) : User :=
  { id := 101, email := em, hashed_password := get_password_hash "Student123!",
    first_name := "Bob", last_name := "Jones", school_id := 7,
    role := UserRole.student, is_active := true,
    student_number := some "2025-002", deleted_at := none }

/-- Database state after both scenario rows. -/
def c6_db2 (em : String) : DB :=
  { DB.empty with users := [c6_alice_user, c6_bob_user em] }

/-- Import-loop state after both scenario rows. -/
def c6_st2 (em : String) : StudentImportState :=
  { created := 2, enrolled := 0, skipped := 0, errors := [],
    seen_emails := ["alice@x.com", em],
    existing_users := [("alice@x.com", c6_alice_user), (em, c6_bob_user em)],
    db := c6_db2 em }

/-- An error string produced for a single row (`f"Row {i+2}: ..."`), as
opposed to a whole-batch error message. -/
def rowTagged (e : String) : Prop := ∃ t, e = "Row " ++ t

/-- The invariant of the teacher import loop: every stored email that is
among the batch's candidate emails is recorded in the loop's
`existing_emails` set, so the screened `create_invited_teacher` flush can
never hit the unique email index. -/
def teacherInv (tc : List String) (st : TeacherImportState) : Prop :=
  ∀ u ∈ st.db.users, u.email ∈ tc →
    st.existing_emails.any (fun e => decide (e = u.email)) = true

/-! ## Helper lemmas -/

theorem foldl_max_init_le (l : List Nat) (a : Nat) : a ≤ l.foldl Nat.max a := by
  induction l generalizing a with
  | nil => simp
  | cons b t ih =>
      simpa using le_trans (Nat.le_max_left a b) (ih (Nat.max a b))

theorem mem_le_foldl_max {l : List Nat} {x : Nat} (hx : x ∈ l) (a : Nat) :
    x ≤ l.foldl Nat.max a := by
  induction l generalizing a with
  | nil => cases hx
  | cons b t ih =>
      simp only [List.foldl_cons]
      rcases List.mem_cons.mp hx with rfl | h
      · exact le_trans (Nat.le_max_right a x) (foldl_max_init_le t _)
      · exact ih h _

theorem foldl_max_mem (l : List Nat) (a : Nat) :
    l.foldl Nat.max a = a ∨ l.foldl Nat.max a ∈ l := by
  induction l generalizing a with
  | nil => left; rfl
  | cons b t ih =>
      simp only [List.foldl_cons]
      rcases ih (Nat.max a b) with h | h
      · rw [h]
        rcases Nat.le_total a b with hab | hab
        · right
          have hb : Nat.max a b = b := max_eq_right hab
          rw [hb]; exact List.mem_cons_self b t
        · left; exact max_eq_left hab
      · right; exact List.mem_cons_of_mem _ h

theorem toDigitsCore_length_ge_one (fuel n : Nat) (ds : List Char)
    (h : n < fuel) : 1 + ds.length ≤ (Nat.toDigitsCore 10 fuel n ds).length := by
  induction fuel generalizing n ds with
  | zero => omega
  | succ f ih =>
      simp only [Nat.toDigitsCore]
      by_cases h0 : n / 10 = 0
      · simp only [h0, if_true, List.length_cons]
        omega
      · simp only [h0, if_false]
        have hlt : n / 10 < f := by
          have h1 : n / 10 < n := Nat.div_lt_self (by omega) (by omega)
          omega
        have := ih (n / 10) (Nat.digitChar (n % 10) :: ds) hlt
        simp only [List.length_cons] at this
        omega

theorem toDigitsCore_length_ge_two (fuel n : Nat) (ds : List Char)
    (h : n < fuel) (h10 : 10 ≤ n) :
    2 + ds.length ≤ (Nat.toDigitsCore 10 fuel n ds).length := by
  cases fuel with
  | zero => omega
  | succ f =>
      simp only [Nat.toDigitsCore]
      have h0 : ¬ n / 10 = 0 := by
        have : 1 ≤ n / 10 := (Nat.le_div_iff_mul_le (by omega)).mpr (by omega)
        omega
      simp only [h0, if_false]
      have hlt : n / 10 < f := by
        have h1 : n / 10 < n := Nat.div_lt_self (by omega) (by omega)
        omega
      have := toDigitsCore_length_ge_one f (n / 10) (Nat.digitChar (n % 10) :: ds) hlt
      simp only [List.length_cons] at this
      omega

theorem toDigitsCore_length_ge_three (fuel n : Nat) (ds : List Char)
    (h : n < fuel) (h100 : 100 ≤ n) :
    3 + ds.length ≤ (Nat.toDigitsCore 10 fuel n ds).length := by
  cases fuel with
  | zero => omega
  | succ f =>
      simp only [Nat.toDigitsCore]
      have h0 : ¬ n / 10 = 0 := by
        have : 1 ≤ n / 10 := (Nat.le_div_iff_mul_le (by omega)).mpr (by omega)
        omega
      simp only [h0, if_false]
      have hlt : n / 10 < f := by
        have h1 : n / 10 < n := Nat.div_lt_self (by omega) (by omega)
        omega
      have h10 : 10 ≤ n / 10 := (Nat.le_div_iff_mul_le (by omega)).mpr (by omega)
      have := toDigitsCore_length_ge_two f (n / 10) (Nat.digitChar (n % 10) :: ds) hlt h10
      simp only [List.length_cons] at this
      omega

theorem toString_nat_length_ge_one (n : Nat) : 1 ≤ (toString n).length := by
  have := toDigitsCore_length_ge_one (n + 1) n [] (by omega)
  simpa [toString, Nat.repr, Nat.toDigits, String.length, List.asString] using this

theorem toString_nat_length_ge_two (n : Nat) (h : 10 ≤ n) :
    2 ≤ (toString n).length := by
  have := toDigitsCore_length_ge_two (n + 1) n [] (by omega) h
  simpa [toString, Nat.repr, Nat.toDigits, String.length, List.asString] using this

theorem toString_nat_length_ge_three (n : Nat) (h : 100 ≤ n) :
    3 ≤ (toString n).length := by
  have := toDigitsCore_length_ge_three (n + 1) n [] (by omega) h
  simpa [toString, Nat.repr, Nat.toDigits, String.length, List.asString] using this

theorem pad3_length (n : Nat) : 3 ≤ (pad3 n).length := by
  unfold pad3
  by_cases h10 : n < 10
  · have := toString_nat_length_ge_one n
    simp only [h10, if_true, String.length_append]
    have h2 : ("00" : String).length = 2 := rfl
    omega
  · by_cases h100 : n < 100
    · have := toString_nat_length_ge_two n (by omega)
      simp only [h10, if_false, h100, if_true, String.length_append]
      have h1 : ("0" : String).length = 1 := rfl
      omega
    · have := toString_nat_length_ge_three n (by omega)
      simpa [h10, h100] using this

theorem pad3_of_ge_100 (n : Nat) (h : 100 ≤ n) : pad3 n = toString n := by
  unfold pad3
  have h10 : ¬ n < 10 := by omega
  have h100 : ¬ n < 100 := by omega
  simp [h10, h100]

theorem seqOf_eq_some {sid year : Nat} {u : User} {x : Nat} :
    seqOf sid year u = some x ↔
      u.school_id = sid ∧ ∃ s, u.student_number = some s ∧
        matchesYearPattern year s = true ∧ numericSuffix year s = x := by
  rcases hsn : u.student_number with _ | s
  · simp [seqOf, hsn]
  · by_cases hsch : u.school_id = sid
    · by_cases hm : matchesYearPattern year s = true
      · simp [seqOf, hsn, hsch, hm]
      · have hm' : matchesYearPattern year s = false := by simpa using hm
        simp [seqOf, hsn, hm']
    · simp [seqOf, hsn, hsch]

theorem mem_matchingSeqs {db : DB} {sid year x : Nat} :
    x ∈ matchingSeqs db sid year ↔
      ∃ u ∈ db.users, u.school_id = sid ∧ ∃ s, u.student_number = some s ∧
        matchesYearPattern year s = true ∧ numericSuffix year s = x := by
  unfold matchingSeqs
  simp only [List.mem_filterMap, seqOf_eq_some]

/-- C3.  For every tenant and year, `generate_next_student_number` returns
`"{year}-{seq}"` where `seq` is 1 plus the maximum numeric suffix among
that tenant's identifiers matching `^{year}-\d+$` (`seq = 1` when none
match); non-matching identifiers never influence the result; the sequence
is zero-padded to at least 3 digits and is not truncated above 999. -/
theorem c3_identifier_allocator (db : DB) (sid year : Nat) :
    ∃ seq,
      generate_next_student_number db sid year = year_dash year ++ pad3 seq ∧
      1 ≤ seq ∧
      (∀ u ∈ db.users, u.school_id = sid → ∀ s, u.student_number = some s →
        matchesYearPattern year s = true → numericSuffix year s < seq) ∧
      (seq = 1 ∨ ∃ u ∈ db.users, u.school_id = sid ∧ ∃ s, u.student_number = some s ∧
        matchesYearPattern year s = true ∧ numericSuffix year s = seq - 1) ∧
      ((∀ u ∈ db.users, u.school_id = sid → ∀ s, u.student_number = some s →
        matchesYearPattern year s = false) → seq = 1) ∧
      (∀ u : User, ¬(u.school_id = sid ∧ ∃ s, u.student_number = some s ∧
          matchesYearPattern year s = true) →
        generate_next_student_number { db with users := u :: db.users } sid year
          = generate_next_student_number db sid year) ∧
      3 ≤ (pad3 seq).length ∧
      (1000 ≤ seq → pad3 seq = toString seq) := by
  refine ⟨(matchingSeqs db sid year).foldl Nat.max 0 + 1, rfl, by omega, ?_, ?_, ?_, ?_,
    pad3_length _, fun h => pad3_of_ge_100 _ (by omega)⟩
  · intro u hu hsch s hsn hm
    have hx : numericSuffix year s ∈ matchingSeqs db sid year :=
      mem_matchingSeqs.mpr ⟨u, hu, hsch, s, hsn, hm, rfl⟩
    have := mem_le_foldl_max hx 0
    omega
  · rcases foldl_max_mem (matchingSeqs db sid year) 0 with h | h
    · left; omega
    · right
      obtain ⟨u, hu, hsch, s, hsn, hm, hx⟩ := mem_matchingSeqs.mp h
      exact ⟨u, hu, hsch, s, hsn, hm, by omega⟩
  · intro hnone
    rcases foldl_max_mem (matchingSeqs db sid year) 0 with h | h
    · omega
    · obtain ⟨u, hu, hsch, s, hsn, hm, _⟩ := mem_matchingSeqs.mp h
      have := hnone u hu hsch s hsn
      rw [hm] at this
      cases this
  · intro u hu
    have hfu : seqOf sid year u = none := by
      cases ho : seqOf sid year u with
      | none => rfl
      | some v =>
          obtain ⟨hsch, s, hsn, hm, -⟩ := seqOf_eq_some.mp ho
          exact absurd ⟨hsch, s, hsn, hm⟩ hu
    unfold generate_next_student_number matchingSeqs
    simp only [List.filterMap_cons, hfu]

/-- Witness for C3: the allocator over `demoAllocatorDb` (one matching
identifier `2025-007`, one custom identifier) at school 1, year 2025. -/
theorem c3_identifier_allocator_witness :
    (∃ seq,
      generate_next_student_number demoAllocatorDb 1 2025 = year_dash 2025 ++ pad3 seq ∧
      1 ≤ seq ∧
      (∀ u ∈ demoAllocatorDb.users, u.school_id = 1 → ∀ s, u.student_number = some s →
        matchesYearPattern 2025 s = true → numericSuffix 2025 s < seq) ∧
      (seq = 1 ∨ ∃ u ∈ demoAllocatorDb.users, u.school_id = 1 ∧
        ∃ s, u.student_number = some s ∧
        matchesYearPattern 2025 s = true ∧ numericSuffix 2025 s = seq - 1) ∧
      ((∀ u ∈ demoAllocatorDb.users, u.school_id = 1 → ∀ s, u.student_number = some s →
        matchesYearPattern 2025 s = false) → seq = 1) ∧
      (∀ u : User, ¬(u.school_id = 1 ∧ ∃ s, u.student_number = some s ∧
          matchesYearPattern 2025 s = true) →
        generate_next_student_number { demoAllocatorDb with users := u :: demoAllocatorDb.users } 1 2025
          = generate_next_student_number demoAllocatorDb 1 2025) ∧
      3 ≤ (pad3 seq).length ∧
      (1000 ≤ seq → pad3 seq = toString seq)) ∧
    generate_next_student_number demoAllocatorDb 1 2025 = "2025-008" :=
  ⟨c3_identifier_allocator demoAllocatorDb 1 2025, by decide⟩

theorem replaceFirst_decomp {α : Type} {p : α → Bool} (f : α → α) {l : List α} {a : α}
    (h : l.find? p = some a) :
    ∃ l₁ l₂, l = l₁ ++ a :: l₂ ∧ (∀ x ∈ l₁, p x = false) ∧
      replaceFirst p f l = l₁ ++ f a :: l₂ := by
  induction l with
  | nil => cases h
  | cons b t ih =>
      by_cases hb : p b
      · rw [List.find?_cons_of_pos _ hb] at h
        injection h with h
        subst h
        exact ⟨[], t, rfl, by simp, by simp [replaceFirst, hb]⟩
      · rw [List.find?_cons_of_neg _ hb] at h
        obtain ⟨l₁, l₂, h1, h2, h3⟩ := ih h
        refine ⟨b :: l₁, l₂, by simp [h1], ?_, by simp [replaceFirst, hb, h3]⟩
        intro x hx
        rcases List.mem_cons.mp hx with rfl | hx
        · simpa using hb
        · exact h2 x hx

theorem codeValid_elim {now : Nat} {code : String} {ac : TeacherAccessCode}
    (h : codeValid now code ac = true) : ac.code = code ∧ ac.is_used = false := by
  unfold codeValid at h
  have h1 := (Bool.and_eq_true _ _).mp h
  have h2 := (Bool.and_eq_true _ _).mp h1.1
  exact ⟨by simpa using h2.1, by simpa using h2.2⟩

theorem codeValid_false_of_used {now : Nat} {code : String} {ac : TeacherAccessCode}
    (h : ac.is_used = true) : codeValid now code ac = false := by
  unfold codeValid
  simp [h]

theorem codeValid_false_of_ne {now : Nat} {code : String} {ac : TeacherAccessCode}
    (h : ¬ ac.code = code) : codeValid now code ac = false := by
  unfold codeValid
  simp [h]

theorem consume_fail_state_eq (db : DB) (code email password fn ln : String)
    (now nid : Nat)
    (h : (create_teacher_with_code db code email password fn ln now nid).fst = none) :
    (create_teacher_with_code db code email password fn ln now nid).snd = db := by
  unfold create_teacher_with_code at h ⊢
  cases hf : db.access_codes.find? (codeValid now code) with
  | none => simp [hf]
  | some ac =>
      cases hit : ac.invited_teacher_id with
      | some tid =>
          cases hu : db.users.find? (fun u => decide (u.id = tid)) with
          | none => simp [hf, hit, hu]
          | some t =>
              by_cases hrole : t.role ≠ UserRole.teacher
              · simp [hf, hit, hu, hrole]
              · by_cases hemail : t.email ≠ email
                · simp [hf, hit, hu, hrole, hemail]
                · simp [hf, hit, hu, hrole, hemail] at h
      | none =>
          by_cases hdup : emailTaken db email = true
          · simp [hf, hit, hdup]
          · simp [hf, hit, hdup] at h

theorem consume_success_shape {db : DB} {code email password fn ln : String}
    {now nid : Nat} {t : User} {db' : DB}
    (h : create_teacher_with_code db code email password fn ln now nid = (some t, db')) :
    ∃ ac, db.access_codes.find? (codeValid now code) = some ac ∧
      db'.access_codes = replaceFirst (codeValid now code)
        (fun _ => { ac with is_used := true, used_by_teacher_id := some t.id })
        db.access_codes ∧
      t.is_active = true ∧ t ∈ db'.users := by
  unfold create_teacher_with_code at h
  split at h
  · simp at h
  · rename_i ac hf
    split at h
    · rename_i tid hit
      split at h
      · simp at h
      · rename_i t0 hu
        split at h
        · simp at h
        · split at h
          · simp at h
          · simp only [Prod.mk.injEq, Option.some.injEq] at h
            obtain ⟨h1, h2⟩ := h
            subst h1
            subst h2
            refine ⟨ac, hf, rfl, rfl, ?_⟩
            obtain ⟨m₁, m₂, hm, -, hmrep⟩ := replaceFirst_decomp
              (fun _ => { t0 with hashed_password := get_password_hash password,
                                  is_active := true }) hu
            simp only [hmrep]
            exact List.mem_append.mpr (Or.inr (List.mem_cons_self _ _))
    · rename_i hit
      split at h
      · simp at h
      · simp only [Prod.mk.injEq, Option.some.injEq] at h
        obtain ⟨h1, h2⟩ := h
        subst h1
        subst h2
        refine ⟨ac, hf, rfl, rfl, ?_⟩
        exact List.mem_append.mpr (Or.inr (List.mem_cons_self _ _))

/-- C1.  An invitation code is consumed at most once: after any
successful consumption, every later consumption of the same code fails
and writes nothing, the resulting state holds both the used-marked code
(with the consumer recorded) and the mutated identity — and any failed
consumption leaves the state exactly unchanged, so no state ever shows
one half of a consumption without the other. -/
theorem c1_code_single_use_atomic (db : DB)
    (code email password fn ln : String) (now nid : Nat) (t : User) (db1 : DB)
    (hwf : db.access_codes.Pairwise (fun a b => a.code ≠ b.code))
    (h1 : create_teacher_with_code db code email password fn ln now nid = (some t, db1)) :
    (∀ email2 pw2 fn2 ln2 now2 nid2,
        create_teacher_with_code db1 code email2 pw2 fn2 ln2 now2 nid2 = (none, db1)) ∧
    (∃ ac' ∈ db1.access_codes, ac'.code = code ∧ ac'.is_used = true ∧
        ac'.used_by_teacher_id = some t.id) ∧
    t.is_active = true ∧ t ∈ db1.users ∧
    (∀ (dbx : DB) email2 pw2 fn2 ln2 now2 nid2,
        (create_teacher_with_code dbx code email2 pw2 fn2 ln2 now2 nid2).fst = none →
        (create_teacher_with_code dbx code email2 pw2 fn2 ln2 now2 nid2).snd = dbx) := by
  obtain ⟨ac, hfind, hacs, hact, hmem⟩ := consume_success_shape h1
  have hcode : ac.code = code := (codeValid_elim (List.find?_some hfind)).1
  obtain ⟨l₁, l₂, hl, -, hrep⟩ := replaceFirst_decomp
    (fun _ => { ac with is_used := true, used_by_teacher_id := some t.id }) hfind
  have hsplit : db1.access_codes =
      l₁ ++ { ac with is_used := true, used_by_teacher_id := some t.id } :: l₂ := by
    rw [hacs, hrep]
  have hwf' := hl ▸ hwf
  have hpair := List.pairwise_append.mp hwf'
  have hnone : ∀ now2, db1.access_codes.find? (codeValid now2 code) = none := by
    intro now2
    apply List.find?_eq_none.mpr
    intro x hx
    rw [hsplit] at hx
    rcases List.mem_append.mp hx with hx1 | hx2
    · have hne : x.code ≠ ac.code := hpair.2.2 x hx1 ac (List.mem_cons_self _ _)
      simp [codeValid_false_of_ne (hcode ▸ hne)]
    · rcases List.mem_cons.mp hx2 with rfl | hx3
      · simp [codeValid]
      · have hne : ac.code ≠ x.code :=
          (List.pairwise_cons.mp hpair.2.1).1 x hx3
        have hxne : ¬ x.code = code := fun hc => hne (hcode.trans hc.symm)
        simp [codeValid_false_of_ne hxne]
  refine ⟨?_, ?_, hact, hmem, ?_⟩
  · intro email2 pw2 fn2 ln2 now2 nid2
    unfold create_teacher_with_code
    rw [hnone now2]
  · refine ⟨{ ac with is_used := true, used_by_teacher_id := some t.id }, ?_, hcode, rfl, rfl⟩
    rw [hsplit]
    exact List.mem_append.mpr (Or.inr (List.mem_cons_self _ _))
  · intro dbx email2 pw2 fn2 ln2 now2 nid2 hfail
    exact consume_fail_state_eq dbx code email2 pw2 fn2 ln2 now2 nid2 hfail

/-- Witness for C1: consuming `demoBoundCode` succeeds once; afterwards
the same code fails (and writes nothing), and the consumed state carries
both the used mark and the activated identity. -/
theorem c1_code_single_use_atomic_witness :
    create_teacher_with_code demoConsumedDb "ABCDEFGH" "other@x.com" "pw2" "A" "B" 0 78
      = (none, demoConsumedDb) ∧
    (∃ ac' ∈ demoConsumedDb.access_codes, ac'.code = "ABCDEFGH" ∧ ac'.is_used = true ∧
      ac'.used_by_teacher_id = some demoActivatedTeacher.id) ∧
    demoActivatedTeacher.is_active = true ∧
    demoActivatedTeacher ∈ demoConsumedDb.users := by
  have h := c1_code_single_use_atomic demoCodeDb "ABCDEFGH" "t@x.com" "pw" "T" "Cher" 0 77
    demoActivatedTeacher demoConsumedDb (by simp [demoCodeDb]) rfl
  exact ⟨h.1 "other@x.com" "pw2" "A" "B" 0 78, h.2.1, h.2.2.1, h.2.2.2.1⟩

/-- C2.  Consuming a code bound to an invited identity: on an email
match the identity is activated in place (real credential, active flag),
the code is marked used and the consumer recorded, everything else
unchanged; on an email mismatch, or when the invited identity is absent,
consumption fails and the state is exactly unchanged. -/
theorem c2_bound_code_email_check (db : DB) (code email password fn ln : String)
    (now nid tid : Nat) (ac : TeacherAccessCode)
    (hfind : db.access_codes.find? (codeValid now code) = some ac)
    (hbound : ac.invited_teacher_id = some tid) :
    (∀ t0, db.users.find? (fun u => decide (u.id = tid)) = some t0 →
      t0.role = UserRole.teacher → t0.email = email →
      create_teacher_with_code db code email password fn ln now nid =
        (some { t0 with hashed_password := get_password_hash password, is_active := true },
         { db with
           users := replaceFirst (fun u => decide (u.id = tid))
             (fun _ => { t0 with
               hashed_password := get_password_hash password,
               is_active := true }) db.users,
           access_codes := replaceFirst (codeValid now code)
             (fun _ => { ac with is_used := true, used_by_teacher_id := some t0.id })
             db.access_codes })) ∧
    (∀ t0, db.users.find? (fun u => decide (u.id = tid)) = some t0 → t0.email ≠ email →
      create_teacher_with_code db code email password fn ln now nid = (none, db)) ∧
    (db.users.find? (fun u => decide (u.id = tid)) = none →
      create_teacher_with_code db code email password fn ln now nid = (none, db)) := by
  refine ⟨?_, ?_, ?_⟩
  · intro t0 hu hrole hemail
    simp [create_teacher_with_code, hfind, hbound, hu, hrole, hemail]
  · intro t0 hu hne
    by_cases hrole : t0.role = UserRole.teacher
    · simp [create_teacher_with_code, hfind, hbound, hu, hrole, hne]
    · simp [create_teacher_with_code, hfind, hbound, hu, hrole]
  · intro hnone
    simp [create_teacher_with_code, hfind, hbound, hnone]

/-- Witness for C2: the bound `demoBoundCode` with the matching email
activates `demoInvitedTeacher`; with a non-matching email it fails and
leaves the database unchanged. -/
theorem c2_bound_code_email_check_witness :
    create_teacher_with_code demoCodeDb "ABCDEFGH" "t@x.com" "pw" "T" "Cher" 0 77
      = (some demoActivatedTeacher, demoConsumedDb) ∧
    create_teacher_with_code demoCodeDb "ABCDEFGH" "wrong@x.com" "pw" "T" "Cher" 0 77
      = (none, demoCodeDb) := by
  have h := c2_bound_code_email_check demoCodeDb "ABCDEFGH" "t@x.com" "pw" "T" "Cher"
    0 77 5 demoBoundCode rfl rfl
  have h2 := c2_bound_code_email_check demoCodeDb "ABCDEFGH" "wrong@x.com" "pw" "T" "Cher"
    0 77 5 demoBoundCode rfl rfl
  constructor
  · exact h.1 demoInvitedTeacher rfl rfl rfl
  · exact h2.2.1 demoInvitedTeacher rfl (by decide)

theorem find?_append_of_none {α : Type} {p : α → Bool} {l₁ : List α}
    (h : ∀ x ∈ l₁, p x = false) (l₂ : List α) :
    (l₁ ++ l₂).find? p = l₂.find? p := by
  induction l₁ with
  | nil => rfl
  | cons a t ih =>
      have ha : ¬ p a = true := by simp [h a (List.mem_cons_self a t)]
      simp only [List.cons_append, List.find?_cons_of_neg _ ha]
      exact ih fun x hx => h x (List.mem_cons_of_mem a hx)

theorem replaceFirst_append_cons {α : Type} {p : α → Bool} (f : α → α)
    {l₁ : List α} (h : ∀ x ∈ l₁, p x = false) {a : α} (ha : p a = true)
    (l₂ : List α) :
    replaceFirst p f (l₁ ++ a :: l₂) = l₁ ++ f a :: l₂ := by
  induction l₁ with
  | nil => simp [replaceFirst, ha]
  | cons b t ih =>
      have hb : ¬ p b = true := by simp [h b (List.mem_cons_self b t)]
      simp only [List.cons_append, replaceFirst, if_neg hb]
      exact congrArg (b :: ·) (ih fun x hx => h x (List.mem_cons_of_mem b hx))

/-- C9.  Soft delete succeeds exactly on a live identity: it stamps the
delete timestamp and, exactly when the role is student, atomically adds a
trash record expiring 30 days after the deletion time; if no live
identity with this id exists (absent or already trashed), it fails and
the state is exactly unchanged. -/
theorem c9_soft_delete_gate (db : DB) (uid now : Nat) :
    (∀ u, db.users.find? (liveWithId uid) = some u →
      soft_delete_user db uid now =
        (true,
         { db with
           users := replaceFirst (liveWithId uid)
             (fun _ => { u with deleted_at := some now }) db.users,
           trash := if u.role = UserRole.student then
               db.trash ++ [{ user_id := uid, deleted_at := now,
                              expires_at := now + thirty_days }]
             else db.trash })) ∧
    (db.users.find? (liveWithId uid) = none →
      soft_delete_user db uid now = (false, db)) := by
  constructor
  · intro u hu
    simp [soft_delete_user, hu]
  · intro hnone
    simp [soft_delete_user, hnone]

/-- Witness for C9: deleting the live `demoStudent` stamps it and files a
30-day trash record; deleting an absent id changes nothing. -/
theorem c9_soft_delete_gate_witness :
    soft_delete_user { DB.empty with users := [demoStudent] } 1 500 =
      (true,
       { DB.empty with
         users := [{ demoStudent with deleted_at := some 500 }],
         trash := [{ user_id := 1, deleted_at := 500,
                     expires_at := 500 + thirty_days }] }) ∧
    soft_delete_user DB.empty 1 500 = (false, DB.empty) := by
  have h := (c9_soft_delete_gate { DB.empty with users := [demoStudent] } 1 500).1
    demoStudent rfl
  have h2 := (c9_soft_delete_gate DB.empty 1 500).2 rfl
  exact ⟨h, h2⟩

/-- C7.  On a live identity with no pre-existing trash record,
soft-delete followed by restore returns the database to exactly its
original state: same user record (role, email, identifier), delete
timestamp null again, and no trash record for that identity. -/
theorem c7_trash_roundtrip (db : DB) (uid now : Nat) (u : User)
    (huniq : db.users.Pairwise (fun a b => a.id ≠ b.id))
    (hfind : db.users.find? (liveWithId uid) = some u)
    (htrash : ∀ r ∈ db.trash, r.user_id ≠ uid) :
    ∃ db1, soft_delete_user db uid now = (true, db1) ∧
      restore_user db1 uid = (true, db) ∧
      db.users.find? (fun x => decide (x.id = uid)) = some u ∧
      u.deleted_at = none ∧
      db.trash.filter (fun r => decide (r.user_id = uid)) = [] := by
  have hlive : liveWithId uid u = true := List.find?_some hfind
  have hu : u.id = uid ∧ u.deleted_at = none := by
    simpa [liveWithId] using hlive
  obtain ⟨l₁, l₂, hl, hl₁, hrep⟩ :=
    replaceFirst_decomp (fun _ => { u with deleted_at := some now }) hfind
  have hids : ∀ x ∈ l₁, decide (x.id = uid) = false := by
    intro x hx
    have hwf := hl ▸ huniq
    have hpair := List.pairwise_append.mp hwf
    have := hpair.2.2 x hx u (List.mem_cons_self _ _)
    simp [hu.1 ▸ this]
  have hfind2 : db.users.find? (fun x => decide (x.id = uid)) = some u := by
    rw [hl, find?_append_of_none hids, List.find?_cons_of_pos _ (by simp [hu.1])]
  have hd := (c9_soft_delete_gate db uid now).1 u hfind
  refine ⟨_, hd, ?_, hfind2, hu.2, ?_⟩
  · -- restore brings back exactly `db`
    have hfind3 :
        (replaceFirst (liveWithId uid) (fun _ => { u with deleted_at := some now })
          db.users).find? (fun x => decide (x.id = uid)) =
          some { u with deleted_at := some now } := by
      rw [hrep, find?_append_of_none hids, List.find?_cons_of_pos _ (by simp [hu.1])]
    have hUeq :
        replaceFirst (fun x => decide (x.id = uid))
          (fun _ => { u with deleted_at := (none : Option Nat) })
          (replaceFirst (liveWithId uid) (fun _ => { u with deleted_at := some now })
            db.users) = db.users := by
      rw [hrep, replaceFirst_append_cons _ hids (by simp [hu.1]) l₂]
      have hback : { u with deleted_at := (none : Option Nat) } = u := by
        cases u
        simp only [User.mk.injEq] at *
        simp [hu.2.symm]
      rw [hback, ← hl]
    have hTeq :
        (if u.role = UserRole.student then
            db.trash ++ [{ user_id := uid, deleted_at := now,
                           expires_at := now + thirty_days }]
          else db.trash).eraseP (fun t => decide (t.user_id = uid)) = db.trash := by
      have hnot : ∀ r ∈ db.trash, ¬ (fun t => decide (t.user_id = uid)) r = true := by
        intro r hr
        simp [htrash r hr]
      by_cases hrole : u.role = UserRole.student
      · rw [if_pos hrole, List.eraseP_append_right _ hnot,
          List.eraseP_cons_of_pos (by simp)]
        simp
      · rw [if_neg hrole, List.eraseP_of_forall_not hnot]
    simp only [restore_user, hfind3]
    rw [if_neg (by simp)]
    simp only [Prod.mk.injEq, true_and]
    rw [hUeq, hTeq]
  · rw [List.filter_eq_nil_iff]
    intro r hr
    simp [htrash r hr]

/-- Witness for C7: round trip on the live `demoStudent`. -/
theorem c7_trash_roundtrip_witness :
    ∃ db1, soft_delete_user { DB.empty with users := [demoStudent] } 1 500 = (true, db1) ∧
      restore_user db1 1 = (true, { DB.empty with users := [demoStudent] }) ∧
      ({ DB.empty with users := [demoStudent] } : DB).users.find?
        (fun x => decide (x.id = 1)) = some demoStudent ∧
      demoStudent.deleted_at = none ∧
      ({ DB.empty with users := [demoStudent] } : DB).trash.filter
        (fun r => decide (r.user_id = 1)) = [] :=
  c7_trash_roundtrip { DB.empty with users := [demoStudent] } 1 500 demoStudent
    (by simp) rfl (by simp [DB.empty])

theorem purgeLoop_count (rs : List StudentTrash) (c : Nat) (db : DB) :
    (purgeLoop rs c db).fst + (purgeLoop rs c db).snd.users.length
      = c + db.users.length := by
  induction rs generalizing c db with
  | nil => simp [purgeLoop]
  | cons r rs ih =>
      cases hf : db.users.find? (fun u => decide (u.id = r.user_id)) with
      | none =>
          have hloop : purgeLoop (r :: rs) c db = purgeLoop rs c db := by
            simp only [purgeLoop, hf]
          rw [hloop]
          exact ih c db
      | some u0 =>
          have hloop : purgeLoop (r :: rs) c db = purgeLoop rs (c + 1)
              { db with
                users := db.users.eraseP (fun u => decide (u.id = r.user_id)),
                trash := db.trash.filter (fun t => !decide (t.user_id = r.user_id)) } := by
            simp only [purgeLoop, hf]
          rw [hloop]
          have hmem := List.mem_of_find?_eq_some hf
          have hp := List.find?_some hf
          have hlen := @List.length_eraseP_of_mem _ db.users u0
            (fun u => decide (u.id = r.user_id)) hmem hp
          have hpos := List.length_pos_of_mem hmem
          have hrec := ih (c + 1)
            { db with
              users := db.users.eraseP (fun u => decide (u.id = r.user_id)),
              trash := db.trash.filter (fun t => !decide (t.user_id = r.user_id)) }
          have hproj : ({ db with
              users := db.users.eraseP (fun u => decide (u.id = r.user_id)),
              trash := db.trash.filter (fun t => !decide (t.user_id = r.user_id)) } : DB).users
              = db.users.eraseP (fun u => decide (u.id = r.user_id)) := rfl
          rw [hrec, hproj]
          omega

theorem purgeLoop_of_no_users (rs : List StudentTrash) (c : Nat) (db : DB)
    (h : ∀ r ∈ rs, db.users.find? (fun u => decide (u.id = r.user_id)) = none) :
    purgeLoop rs c db = (c, db) := by
  induction rs with
  | nil => rfl
  | cons r rs ih =>
      unfold purgeLoop
      rw [h r (List.mem_cons_self r rs)]
      exact ih fun r2 h2 => h r2 (List.mem_cons_of_mem _ h2)

theorem purgeLoop_state (rs : List StudentTrash) (c : Nat) (db : DB)
    (hrs : rs.Pairwise (fun a b => a.user_id ≠ b.user_id))
    (hus : db.users.Pairwise (fun a b => a.id ≠ b.id)) :
    (purgeLoop rs c db).snd.users =
        db.users.filter (fun u => !rs.any (fun r => decide (u.id = r.user_id))) ∧
    (purgeLoop rs c db).snd.trash =
        db.trash.filter (fun t =>
          !(rs.any (fun r => decide (t.user_id = r.user_id)) &&
            db.users.any (fun u => decide (u.id = t.user_id)))) := by
  induction rs generalizing c db with
  | nil => constructor <;> simp [purgeLoop]
  | cons r rs ih =>
      have hrs' := (List.pairwise_cons.mp hrs).2
      cases hf : db.users.find? (fun u => decide (u.id = r.user_id)) with
      | none =>
          have hno : ∀ u ∈ db.users, decide (u.id = r.user_id) = false := by
            intro u hu
            have := List.find?_eq_none.mp hf u hu
            simpa using this
          obtain ⟨ihu, iht⟩ := ih c db hrs' hus
          have hloop : purgeLoop (r :: rs) c db = purgeLoop rs c db := by
            simp only [purgeLoop, hf]
          rw [hloop]
          constructor
          · rw [ihu]
            apply List.filter_congr
            intro u hu
            simp [List.any_cons, hno u hu]
          · rw [iht]
            apply List.filter_congr
            intro t ht
            by_cases hd : t.user_id = r.user_id
            · have hA : db.users.any (fun u => decide (u.id = t.user_id)) = false := by
                apply List.any_eq_false.mpr
                intro u hu
                simp only [decide_eq_true_eq]
                intro hc
                have h2 := hno u hu
                rw [hd] at hc
                simp [hc] at h2
              simp [List.any_cons, hA]
            · have hdd : decide (t.user_id = r.user_id) = false := by
                simp [hd]
              simp [List.any_cons, hdd]
      | some u0 =>
          have hp := List.find?_some hf
          have hid : u0.id = r.user_id := by simpa using hp
          obtain ⟨l₁, l₂, hl, hl₁, -⟩ := replaceFirst_decomp (fun x => x) hf
          have herase : db.users.eraseP (fun u => decide (u.id = r.user_id)) = l₁ ++ l₂ := by
            rw [hl, List.eraseP_append_right _ (fun b hb => by simp [hl₁ b hb]),
              @List.eraseP_cons_of_pos _ u0 l₂ (fun u => decide (u.id = r.user_id)) hp]
          have hloop : purgeLoop (r :: rs) c db = purgeLoop rs (c + 1)
              { db with
                users := l₁ ++ l₂,
                trash := db.trash.filter (fun t => !decide (t.user_id = r.user_id)) } := by
            simp only [purgeLoop, hf, herase]
          have hpairsplit := List.pairwise_append.mp (hl ▸ hus)
          have hl₂id : ∀ x ∈ l₂, decide (x.id = r.user_id) = false := by
            intro x hx
            have := (List.pairwise_cons.mp hpairsplit.2.1).1 x hx
            simp only [decide_eq_false_iff_not]
            intro hc
            exact this (hid.symm ▸ hc.symm ▸ rfl)
          have hus1 : (l₁ ++ l₂).Pairwise (fun a b => a.id ≠ b.id) :=
            List.Pairwise.sublist
              (List.Sublist.append_left (List.sublist_cons_self u0 l₂) l₁) (hl ▸ hus)
          obtain ⟨ihu, iht⟩ := ih (c + 1)
            { db with
              users := l₁ ++ l₂,
              trash := db.trash.filter (fun t => !decide (t.user_id = r.user_id)) }
            hrs' (by simpa using hus1)
          have hprojU : ({ db with
              users := l₁ ++ l₂,
              trash := db.trash.filter (fun t => !decide (t.user_id = r.user_id)) } : DB).users
              = l₁ ++ l₂ := rfl
          have hprojT : ({ db with
              users := l₁ ++ l₂,
              trash := db.trash.filter (fun t => !decide (t.user_id = r.user_id)) } : DB).trash
              = db.trash.filter (fun t => !decide (t.user_id = r.user_id)) := rfl
          rw [hloop]
          constructor
          · rw [ihu, hprojU, hl, List.filter_append, List.filter_append,
              List.filter_cons_of_neg (by simp [List.any_cons, hp])]
            have e₁ : l₁.filter (fun u => !rs.any (fun r2 => decide (u.id = r2.user_id)))
                = l₁.filter (fun u => !(r :: rs).any (fun r2 => decide (u.id = r2.user_id))) := by
              apply List.filter_congr
              intro x hx
              simp [List.any_cons, hl₁ x hx]
            have e₂ : l₂.filter (fun u => !rs.any (fun r2 => decide (u.id = r2.user_id)))
                = l₂.filter (fun u => !(r :: rs).any (fun r2 => decide (u.id = r2.user_id))) := by
              apply List.filter_congr
              intro x hx
              simp [List.any_cons, hl₂id x hx]
            rw [e₁, e₂]
          · rw [iht, hprojU, hprojT, List.filter_filter]
            apply List.filter_congr
            intro t ht
            have hA : db.users.any (fun u => decide (u.id = t.user_id))
                = ((l₁ ++ l₂).any (fun u => decide (u.id = t.user_id))
                   || decide (u0.id = t.user_id)) := by
              rw [hl]
              simp only [List.any_append, List.any_cons]
              cases l₁.any (fun u => decide (u.id = t.user_id)) <;>
                cases l₂.any (fun u => decide (u.id = t.user_id)) <;>
                cases hu0 : decide (u0.id = t.user_id) <;> simp
            by_cases hd : t.user_id = r.user_id
            · have hddec : decide (t.user_id = r.user_id) = true := by simp [hd]
              have hu0t : decide (u0.id = t.user_id) = true := by simp [hid, hd]
              have hAtrue : db.users.any (fun u => decide (u.id = t.user_id)) = true := by
                rw [hA, hu0t]
                simp
              simp [List.any_cons, hddec, hAtrue]
            · have hddec : decide (t.user_id = r.user_id) = false := by simp [hd]
              have hu0t : decide (u0.id = t.user_id) = false := by
                simp only [decide_eq_false_iff_not]
                intro hc
                exact hd (by rw [← hc, hid])
              have hAeq : db.users.any (fun u => decide (u.id = t.user_id))
                  = (l₁ ++ l₂).any (fun u => decide (u.id = t.user_id)) := by
                rw [hA, hu0t]
                simp
              simp [List.any_cons, hddec, hAeq]

/-- C8.  Sweep permanently deletes exactly the identities holding a trash
record with `expires_at <= now` (the purge count accounts for every
deleted identity), an identity whose trash records all expire in the
future survives, and an immediately repeated sweep purges 0 additional
identities and changes nothing. -/
theorem c8_sweep_retention (db : DB) (now : Nat)
    (hwt : db.trash.Pairwise (fun a b => a.user_id ≠ b.user_id))
    (hwu : db.users.Pairwise (fun a b => a.id ≠ b.id)) :
    (cleanup_expired_trash db now).fst + (cleanup_expired_trash db now).snd.users.length
        = db.users.length ∧
    (cleanup_expired_trash db now).snd.users =
      db.users.filter (fun u =>
        !db.trash.any (fun r => decide (r.expires_at ≤ now) && decide (u.id = r.user_id))) ∧
    (∀ u ∈ db.users, (∀ r ∈ db.trash, r.user_id = u.id → now < r.expires_at) →
      u ∈ (cleanup_expired_trash db now).snd.users) ∧
    cleanup_expired_trash (cleanup_expired_trash db now).snd now
      = (0, (cleanup_expired_trash db now).snd) := by
  have hrs : (db.trash.filter (fun r => decide (r.expires_at ≤ now))).Pairwise
      (fun a b => a.user_id ≠ b.user_id) :=
    List.Pairwise.sublist (List.filter_sublist _) hwt
  obtain ⟨hU, hT⟩ :=
    purgeLoop_state (db.trash.filter fun r => decide (r.expires_at ≤ now)) 0 db hrs hwu
  have hcount :=
    purgeLoop_count (db.trash.filter fun r => decide (r.expires_at ≤ now)) 0 db
  have hU' : (cleanup_expired_trash db now).snd.users =
      db.users.filter (fun u =>
        !db.trash.any (fun r => decide (r.expires_at ≤ now) && decide (u.id = r.user_id))) := by
    simp only [cleanup_expired_trash]
    rw [hU]
    apply List.filter_congr
    intro u hu
    rw [List.any_filter]
  refine ⟨by simpa [cleanup_expired_trash] using hcount, hU', ?_, ?_⟩
  · intro u hu hfut
    rw [hU']
    refine List.mem_filter.mpr ⟨hu, ?_⟩
    have hfalse : db.trash.any
        (fun r => decide (r.expires_at ≤ now) && decide (u.id = r.user_id)) = false := by
      apply List.any_eq_false.mpr
      intro r hr
      simp only [Bool.and_eq_true, decide_eq_true_eq, not_and]
      intro hexp hidm
      have := hfut r hr hidm.symm
      omega
    rw [hfalse]
    rfl
  · have hnou : ∀ r2 ∈ (cleanup_expired_trash db now).snd.trash.filter
        (fun r => decide (r.expires_at ≤ now)),
        (cleanup_expired_trash db now).snd.users.find?
          (fun u => decide (u.id = r2.user_id)) = none := by
      intro r2 hr2
      obtain ⟨hr2t, hr2e⟩ := List.mem_filter.mp hr2
      have hr2t' : r2 ∈ db.trash ∧
          (!((db.trash.filter fun r => decide (r.expires_at ≤ now)).any
              (fun r => decide (r2.user_id = r.user_id)) &&
            db.users.any (fun u => decide (u.id = r2.user_id)))) = true := by
        rw [show (cleanup_expired_trash db now).snd.trash
            = (purgeLoop (db.trash.filter fun r => decide (r.expires_at ≤ now)) 0 db).snd.trash
            from rfl, hT] at hr2t
        exact List.mem_filter.mp hr2t
      have hin : (db.trash.filter fun r => decide (r.expires_at ≤ now)).any
          (fun r => decide (r2.user_id = r.user_id)) = true := by
        apply List.any_eq_true.mpr
        exact ⟨r2, List.mem_filter.mpr ⟨hr2t'.1, hr2e⟩, by simp⟩
      have hA : db.users.any (fun u => decide (u.id = r2.user_id)) = false := by
        cases hA : db.users.any (fun u => decide (u.id = r2.user_id)) with
        | false => rfl
        | true =>
            have := hr2t'.2
            rw [hin, hA] at this
            cases this
      apply List.find?_eq_none.mpr
      intro x hx
      have hxdb : x ∈ db.users := by
        rw [hU'] at hx
        exact (List.mem_filter.mp hx).1
      have := List.any_eq_false.mp hA x hxdb
      simpa using this
    exact purgeLoop_of_no_users _ 0 (cleanup_expired_trash db now).snd hnou

/-- Witness for C8: sweeping `demoSweepDb` at time 100 purges identity 1
(expired trash), keeps identity 2 (future trash), and a second sweep is a
no-op. -/
theorem c8_sweep_retention_witness :
    (cleanup_expired_trash demoSweepDb 100).fst +
        (cleanup_expired_trash demoSweepDb 100).snd.users.length
        = demoSweepDb.users.length ∧
    (cleanup_expired_trash demoSweepDb 100).snd.users =
      demoSweepDb.users.filter (fun u =>
        !demoSweepDb.trash.any (fun r =>
          decide (r.expires_at ≤ 100) && decide (u.id = r.user_id))) ∧
    (∀ u ∈ demoSweepDb.users,
      (∀ r ∈ demoSweepDb.trash, r.user_id = u.id → 100 < r.expires_at) →
      u ∈ (cleanup_expired_trash demoSweepDb 100).snd.users) ∧
    cleanup_expired_trash (cleanup_expired_trash demoSweepDb 100).snd 100
      = (0, (cleanup_expired_trash demoSweepDb 100).snd) :=
  c8_sweep_retention demoSweepDb 100 (by decide) (by decide)

/-- C10.  For a non-student role, `create_user` stores a null student
identifier even when one is supplied, and it runs no identifier
uniqueness check: a colliding supplied identifier is silently discarded,
never rejected — creation succeeds whenever the email is free. -/
theorem c10_non_student_identifier_discarded (db : DB)
    (email password first_name last_name : String) (school_id : Nat)
    (role : UserRole) (is_active : Bool) (student_number : Option String)
    (year new_id : Nat)
    (hrole : role ≠ UserRole.student)
    (hfree : emailTaken db email = false) :
    ∃ u, create_user db email password first_name last_name school_id role
        is_active student_number year new_id
        = .ok (u, { db with users := db.users ++ [u] }) ∧
      u.student_number = none := by
  refine ⟨{ id := new_id, email := email, hashed_password := get_password_hash password, first_name := first_name, last_name := last_name, school_id := school_id, role := role, is_active := is_active, student_number := none, deleted_at := none }, ?_, rfl⟩
  simp [create_user, hrole, hfree]
  rfl

/-- Witness for C10: a teacher supplied with the identifier `2025-007`,
which already belongs to student 1 of the same school, is still created,
with no stored identifier. -/
theorem c10_non_student_identifier_discarded_witness :
    (∃ u, create_user demoAllocatorDb "new@x.com" "pw" "A" "B" 1 UserRole.teacher
        true (some "2025-007") 2025 9
        = .ok (u, { demoAllocatorDb with users := demoAllocatorDb.users ++ [u] }) ∧
      u.student_number = none) ∧
    demoStudent ∈ demoAllocatorDb.users ∧ demoStudent.school_id = 1 ∧
    demoStudent.student_number = some "2025-007" :=
  ⟨c10_non_student_identifier_discarded demoAllocatorDb "new@x.com" "pw" "A" "B" 1
      UserRole.teacher true (some "2025-007") 2025 9 (by decide) (by decide),
    List.mem_cons_self _ _, rfl, rfl⟩

/-- C4 counterexample: two `create_user` calls with the same email — the
second fails with the untyped storage unique-index violation, which is a
different failure from the typed DUPLICATE_EMAIL rejection the claim
asserts. -/
theorem c4_counterexample_untyped_failure :
    create_user DB.empty "dup@x.com" "pw" "A" "B" 1 UserRole.teacher true none 2025 1
      = .ok (demoDupUser, demoDupDb) ∧
    create_user demoDupDb "dup@x.com" "pw2" "C" "D" 2 UserRole.teacher true none 2025 2
      = .error IdentityError.unique_email_violation ∧
    (Except.error IdentityError.unique_email_violation
      ≠ (Except.error IdentityError.duplicate_email : Except IdentityError (User × DB))) :=
  ⟨rfl, rfl, by simp⟩

/-- C4 (amended).  A second identity-creation call with an existing email
always fails and creates no identity, but in `create_user` the failure is
the untyped storage unique-constraint violation; the typed duplicate-email
rejection lives in the endpoint pre-check (`create_teacher_invite`), not
in `create_user`. -/
theorem c4_duplicate_email_rejection (db : DB) (email : String)
    (hdup : emailTaken db email = true) :
    (∀ (password first_name last_name : String) (school_id : Nat) (role : UserRole)
        (is_active : Bool) (year new_id : Nat),
      create_user db email password first_name last_name school_id role is_active
        none year new_id = .error IdentityError.unique_email_violation) ∧
    (∀ (first_name last_name : String) (admin_id school_id now new_id : Nat)
        (code placeholder : String),
      create_teacher_invite_endpoint db email first_name last_name admin_id school_id
        now new_id code placeholder = .error IdentityError.duplicate_email) := by
  constructor
  · intro password fn ln sid role act year nid
    by_cases hrole : role = UserRole.student <;>
      simp [create_user, hrole, hdup] <;> rfl
  · intro fn ln aid sid now nid code ph
    simp [create_teacher_invite_endpoint, hdup]

/-- Witness for C4 (amended): both failure shapes at a concrete state. -/
theorem c4_duplicate_email_rejection_witness :
    create_user demoDupDb "dup@x.com" "pw2" "C" "D" 2 UserRole.student true none 2025 3
      = .error IdentityError.unique_email_violation ∧
    create_teacher_invite_endpoint demoDupDb "dup@x.com" "C" "D" 9 2 0 3 "CODE1234" "ph"
      = .error IdentityError.duplicate_email := by
  have h := c4_duplicate_email_rejection demoDupDb "dup@x.com" (by decide)
  exact ⟨h.1 "pw2" "C" "D" 2 UserRole.student true 2025 3,
    h.2 "C" "D" 9 2 0 3 "CODE1234" "ph"⟩

theorem student_import_step_supplied (pu : String → Option Nat) (sid year : Nat)
    (sg : Nat → String) (ig : Nat → Nat) (st : StudentImportState) (i : Nat) (row : Row)
    (hfn : getField (normalize_csv_headers row) "first_name" ≠ "")
    (hln : getField (normalize_csv_headers row) "last_name" ≠ "")
    (hem : getField (normalize_csv_headers row) "email" ≠ "") :
    student_import_step pu sid year sg ig st i row
      = student_row_resolve pu sid year (ig i) st i
          (getField (normalize_csv_headers row) "email")
          (getField (normalize_csv_headers row) "first_name")
          (getField (normalize_csv_headers row) "last_name")
          (if getField (normalize_csv_headers row) "student_number" = "" then none
           else some (getField (normalize_csv_headers row) "student_number"))
          (getField (normalize_csv_headers row) "class_id") := by
  simp [student_import_step, hfn, hln, hem]

theorem placeholder_ne_alice (s : String) :
    placeholderEmail "Bob" "Jones" s ≠ "alice@x.com" := by
  intro h
  have hlen := congrArg String.length h
  simp only [placeholderEmail, String.length_append] at hlen
  have h1 : (sLower "Bob").length = 3 := rfl
  have h2 : (sLower "Jones").length = 5 := rfl
  have h3 : ("." : String).length = 1 := rfl
  have h4 : ("@youspeak-dummy.com" : String).length = 19 := rfl
  have h5 : ("alice@x.com" : String).length = 11 := rfl
  rw [h1, h2, h3, h4, h5] at hlen
  omega

theorem c6_resolve_bob (em : String) (hne : em ≠ "alice@x.com") :
    student_row_resolve (fun _ => none) 7 2025 101 c6_st1 1 em "Bob" "Jones" none ""
      = c6_st2 em := by
  have hd : decide ("alice@x.com" = em) = false :=
    decide_eq_false (fun hh => hne hh.symm)
  have hgen : generate_next_student_number c6_db1 7 2025 = "2025-002" := rfl
  have hmail : emailTaken c6_db1 em = false := by
    simp [emailTaken, c6_db1, c6_alice_user, DB.empty, hd]
  simp only [student_row_resolve, c6_st1, List.any_cons, List.any_nil, hd,
    Bool.or_false, Bool.false_or, if_false]
  rw [List.find?_cons_of_neg _ (by simp [hd])]
  simp only [List.find?_nil]
  simp only [create_user, hgen, hmail]
  simp [student_attach_class, c6_st2, c6_db2, c6_db1, c6_bob_user, DB.empty]
  rfl

/-- C6 counterexample: in the teacher bulk import, a row with both names
but a blank email is not given a synthesized placeholder — it is recorded
as the row error `email required` and creates nothing. -/
theorem c6_counterexample_teacher_blank_email :
    import_teachers_from_csv DB.empty 1 9 (.table [bobRow]) 0 (fun _ => "CODE1234")
      (fun _ => "ph") (fun i => i) (fun _ => none)
      = .ok ({ created := 0, skipped := 0, errors := ["Row 2: email required"],
               invitations := [] }, DB.empty) := rfl

/-- C6 (amended).  In the student bulk import, a row with both names but
a blank email gets the synthesized placeholder email and is processed
exactly like a row that had supplied it (no row error from the
blankness); the Alice/Bob scenario yields `created = 2, skipped = 0,
errors = []` with Bob's email of the placeholder form, for every random
suffix.  (The teacher importer instead records an `email required` row
error — see the counterexample.) -/
theorem c6_blank_email_synthesis (pu : String → Option Nat) :
    (∀ (sid year : Nat) (sg : Nat → String) (ig : Nat → Nat)
        (st : StudentImportState) (i : Nat) (row : Row),
      getField (normalize_csv_headers row) "first_name" ≠ "" →
      getField (normalize_csv_headers row) "last_name" ≠ "" →
      getField (normalize_csv_headers row) "email" = "" →
      student_import_step pu sid year sg ig st i row
        = student_row_resolve pu sid year (ig i) st i
            (placeholderEmail (getField (normalize_csv_headers row) "first_name")
              (getField (normalize_csv_headers row) "last_name") (sg i))
            (getField (normalize_csv_headers row) "first_name")
            (getField (normalize_csv_headers row) "last_name")
            (if getField (normalize_csv_headers row) "student_number" = "" then none
             else some (getField (normalize_csv_headers row) "student_number"))
            (getField (normalize_csv_headers row) "class_id")) ∧
    (∀ σ : Nat → String, ∃ bob db1,
      import_students_from_csv DB.empty 7 (.table [aliceRow, bobRow]) 2025 σ
          (fun i => 100 + i) (fun _ => none)
        = ({ created := 2, enrolled := 0, skipped := 0, errors := [] }, db1) ∧
      bob ∈ db1.users ∧ bob.email = placeholderEmail "Bob" "Jones" (σ 1) ∧
      bob.first_name = "Bob" ∧ bob.last_name = "Jones") := by
  constructor
  · intro sid year sg ig st i row hfn hln hem
    simp [student_import_step, hfn, hln, hem]
  · intro σ
    refine ⟨c6_bob_user (placeholderEmail "Bob" "Jones" (σ 1)),
      c6_db2 (placeholderEmail "Bob" "Jones" (σ 1)), ?_,
      List.mem_cons_of_mem _ (List.mem_cons_self _ _), rfl, rfl, rfl⟩
    have halice : student_import_step (fun _ => none) 7 2025 σ (fun i => 100 + i)
        { created := 0, enrolled := 0, skipped := 0, errors := [], seen_emails := [],
          existing_users := get_users_by_emails DB.empty (candidate_emails [aliceRow, bobRow]),
          db := DB.empty } 0 aliceRow = c6_st1 := by
      rw [student_import_step_supplied (fun _ => none) 7 2025 σ (fun i => 100 + i) _ 0
        aliceRow (by decide) (by decide) (by decide)]
      rfl
    have hstep : student_import_step (fun _ => none) 7 2025 σ (fun i => 100 + i)
        c6_st1 1 bobRow = c6_st2 (placeholderEmail "Bob" "Jones" (σ 1)) := by
      have hsyn : student_import_step (fun _ => none) 7 2025 σ (fun i => 100 + i)
          c6_st1 1 bobRow
          = student_row_resolve (fun _ => none) 7 2025 101 c6_st1 1
              (placeholderEmail "Bob" "Jones" (σ 1)) "Bob" "Jones" none "" := by
        simp [student_import_step, getField, normalize_csv_headers, bobRow]
        rfl
      rw [hsyn]
      exact c6_resolve_bob _ (placeholder_ne_alice (σ 1))
    simp only [import_students_from_csv, student_import_loop, halice, hstep]
    rfl

/-- Witness for C6 (amended): the synthesis equation at the concrete Bob
row, and the scenario at the concrete suffix generator. -/
theorem c6_blank_email_synthesis_witness :
    (student_import_step (fun _ => none) 7 2025 (fun _ => "a1b2c3d4")
        (fun i => 100 + i) c6_st1 1 bobRow
      = student_row_resolve (fun _ => none) 7 2025 101 c6_st1 1
          (placeholderEmail "Bob" "Jones" "a1b2c3d4") "Bob" "Jones" none "") ∧
    (∃ bob db1,
      import_students_from_csv DB.empty 7 (.table [aliceRow, bobRow]) 2025
          (fun _ => "a1b2c3d4") (fun i => 100 + i) (fun _ => none)
        = ({ created := 2, enrolled := 0, skipped := 0, errors := [] }, db1) ∧
      bob ∈ db1.users ∧
      bob.email = placeholderEmail "Bob" "Jones" "a1b2c3d4" ∧
      bob.first_name = "Bob" ∧ bob.last_name = "Jones") := by
  have h := c6_blank_email_synthesis (fun _ => none)
  constructor
  · exact h.1 7 2025 (fun _ => "a1b2c3d4") (fun i => 100 + i) c6_st1 1 bobRow
      (by decide) (by decide) rfl
  · exact h.2 (fun _ => "a1b2c3d4")


theorem rowMsg_tagged (i : Nat) (msg : String) : rowTagged (rowMsg i msg) :=
  ⟨toString (i + 2) ++ (": " ++ msg), rfl⟩

theorem student_attach_class_errors (pu : String → Option Nat) (sid : Nat)
    (st : StudentImportState) (i : Nat) (cls : String) (uid : Nat) :
    (student_attach_class pu sid st i cls uid).errors = st.errors ∨
    ∃ m, (student_attach_class pu sid st i cls uid).errors = st.errors ++ [rowMsg i m] := by
  unfold student_attach_class
  repeat' split
  all_goals
    first
      | exact Or.inl rfl
      | exact Or.inr ⟨_, rfl⟩

theorem student_row_resolve_errors (pu : String → Option Nat)
    (sid year nid : Nat) (st : StudentImportState) (i : Nat)
    (em fn ln : String) (sn : Option String) (cls : String) :
    (student_row_resolve pu sid year nid st i em fn ln sn cls).errors = st.errors ∨
    ∃ m, (student_row_resolve pu sid year nid st i em fn ln sn cls).errors
      = st.errors ++ [rowMsg i m] := by
  unfold student_row_resolve
  dsimp only
  split
  · exact Or.inl rfl
  · split
    · split
      · exact Or.inr ⟨_, rfl⟩
      · split
        · exact Or.inr ⟨_, rfl⟩
        · exact student_attach_class_errors pu sid _ i cls _
    · split
      · exact Or.inr ⟨_, rfl⟩
      · exact student_attach_class_errors pu sid _ i cls _

theorem student_import_step_errors (pu : String → Option Nat)
    (sid year : Nat) (sg : Nat → String) (ig : Nat → Nat)
    (st : StudentImportState) (i : Nat) (row : Row) :
    (student_import_step pu sid year sg ig st i row).errors = st.errors ∨
    ∃ m, (student_import_step pu sid year sg ig st i row).errors
      = st.errors ++ [rowMsg i m] := by
  unfold student_import_step
  dsimp only
  split
  · exact Or.inr ⟨_, rfl⟩
  · exact student_row_resolve_errors pu sid year _ st i _ _ _ _ _

theorem student_import_loop_errors (pu : String → Option Nat)
    (sid year : Nat) (sg : Nat → String) (ig : Nat → Nat) :
    ∀ (rows : List Row) (i : Nat) (st : StudentImportState),
    ∃ es, (student_import_loop pu sid year sg ig i rows st).errors = st.errors ++ es ∧
      ∀ e ∈ es, rowTagged e := by
  intro rows
  induction rows with
  | nil => exact fun i st => ⟨[], by simp [student_import_loop], by simp⟩
  | cons row rows ih =>
      intro i st
      obtain ⟨es, hes, htag⟩ := ih (i + 1) (student_import_step pu sid year sg ig st i row)
      rcases student_import_step_errors pu sid year sg ig st i row with h | ⟨m, h⟩
      · exact ⟨es, by simp only [student_import_loop, hes, h], htag⟩
      · refine ⟨[rowMsg i m] ++ es, ?_, ?_⟩
        · simp only [student_import_loop, hes, h, List.append_assoc]
        · intro e he
          rcases List.mem_append.mp he with he | he
          · simp only [List.mem_singleton] at he
            subst he
            exact rowMsg_tagged i m
          · exact htag e he

theorem student_import_loop_append (pu : String → Option Nat)
    (sid year : Nat) (sg : Nat → String) (ig : Nat → Nat) :
    ∀ (r₁ r₂ : List Row) (i : Nat) (st : StudentImportState),
    student_import_loop pu sid year sg ig i (r₁ ++ r₂) st
      = student_import_loop pu sid year sg ig (i + r₁.length) r₂
          (student_import_loop pu sid year sg ig i r₁ st) := by
  intro r₁
  induction r₁ with
  | nil => intro r₂ i st; simp [student_import_loop]
  | cons row r₁ ih =>
      intro r₂ i st
      simp only [List.cons_append, student_import_loop, List.length_cons, List.append_eq]
      rw [ih]
      congr 1
      omega


theorem add_teacher_to_classroom_users (db : DB) (c t s : Nat) :
    (add_teacher_to_classroom db c t s).snd.users = db.users := by
  unfold add_teacher_to_classroom
  repeat' split
  all_goals rfl

theorem mem_candidate_emails {rows : List Row} {row : Row}
    (hrow : row ∈ rows)
    (hfn : getField (normalize_csv_headers row) "first_name" ≠ "")
    (hln : getField (normalize_csv_headers row) "last_name" ≠ "")
    (hem : getField (normalize_csv_headers row) "email" ≠ "") :
    getField (normalize_csv_headers row) "email" ∈ candidate_emails rows := by
  unfold candidate_emails
  apply List.mem_filterMap.mpr
  refine ⟨row, hrow, ?_⟩
  simp [hfn, hln, hem]

theorem teacherInv_init (db : DB) (tc : List String) :
    teacherInv tc
      { created := 0, skipped := 0, errors := [], invitations := [],
        seen_emails := [], existing_emails := get_existing_emails db tc, db := db } := by
  intro u hu hmem
  apply List.any_eq_true.mpr
  refine ⟨u.email, ?_, by simp⟩
  unfold get_existing_emails
  apply List.mem_filterMap.mpr
  refine ⟨u, hu, ?_⟩
  have hc : tc.any (fun e => decide (e = u.email)) = true :=
    List.any_eq_true.mpr ⟨u.email, hmem, by simp⟩
  simp [hc]


theorem teacher_import_step_ok (sid aid now : Nat) (cg pg : Nat → String)
    (ig : Nat → Nat) (pu : String → Option Nat) (tc : List String)
    (st : TeacherImportState) (i : Nat) (row : Row)
    (hrow : getField (normalize_csv_headers row) "email" ∈ tc ∨
            getField (normalize_csv_headers row) "first_name" = "" ∨
            getField (normalize_csv_headers row) "last_name" = "" ∨
            getField (normalize_csv_headers row) "email" = "")
    (hinv : teacherInv tc st) :
    ∃ st', teacher_import_step sid aid now cg pg ig pu st i row = .ok st' ∧
      st'.created + st'.skipped + st'.errors.length
        = st.created + st.skipped + st.errors.length + 1 ∧
      (st'.errors = st.errors ∨ ∃ m, st'.errors = st.errors ++ [rowMsg i m]) ∧
      teacherInv tc st' := by
  unfold teacher_import_step
  dsimp only
  split
  · refine ⟨_, rfl, ?_, Or.inr ⟨_, rfl⟩, hinv⟩
    simp only [List.length_append, List.length_cons, List.length_nil]
    omega
  · split
    · refine ⟨_, rfl, ?_, Or.inr ⟨_, rfl⟩, hinv⟩
      simp only [List.length_append, List.length_cons, List.length_nil]
      omega
    · split
      · refine ⟨_, rfl, ?_, Or.inl rfl, hinv⟩
        simp only [List.length_append, List.length_cons, List.length_nil]
        omega
      · split
        · refine ⟨_, rfl, ?_, Or.inr ⟨_, rfl⟩, hinv⟩
          simp only [List.length_append, List.length_cons, List.length_nil]
          omega
        · rename_i hnames hemail hseen hexist
          have hmemtc : getField (normalize_csv_headers row) "email" ∈ tc := by
            rcases hrow with h | h | h | h
            · exact h
            · exact absurd (by simp [h]) hnames
            · exact absurd (by simp [h]) hnames
            · exact absurd h hemail
          have hmail : emailTaken st.db (getField (normalize_csv_headers row) "email") = false := by
            by_contra hc
            have ht : emailTaken st.db (getField (normalize_csv_headers row) "email") = true := by
              cases hb : emailTaken st.db (getField (normalize_csv_headers row) "email")
              · exact absurd hb hc
              · rfl
            simp only [emailTaken, List.any_eq_true] at ht
            obtain ⟨u, hu, hue⟩ := ht
            have hue' : u.email = getField (normalize_csv_headers row) "email" :=
              of_decide_eq_true hue
            have hany := hinv u hu (by rw [hue']; exact hmemtc)
            simp only [hue'] at hany
            exact hexist hany
          have hcreate : create_invited_teacher st.db
              (getField (normalize_csv_headers row) "email")
              (getField (normalize_csv_headers row) "first_name")
              (getField (normalize_csv_headers row) "last_name") sid (pg i) (ig i)
              = Except.ok
                ({ id := ig i, email := getField (normalize_csv_headers row) "email",
                   hashed_password := get_password_hash (pg i),
                   first_name := getField (normalize_csv_headers row) "first_name",
                   last_name := getField (normalize_csv_headers row) "last_name",
                   school_id := sid, role := UserRole.teacher, is_active := false,
                   student_number := none, deleted_at := none },
                 { st.db with
                     users := st.db.users ++
                       [{ id := ig i,
                          email := getField (normalize_csv_headers row) "email",
                          hashed_password := get_password_hash (pg i),
                          first_name := getField (normalize_csv_headers row) "first_name",
                          last_name := getField (normalize_csv_headers row) "last_name",
                          school_id := sid, role := UserRole.teacher, is_active := false,
                          student_number := none, deleted_at := none }] }) := by
            simp [create_invited_teacher, hmail]
          split
          · refine ⟨_, rfl, ?_, Or.inr ⟨_, rfl⟩, hinv⟩
            simp only [List.length_append, List.length_cons, List.length_nil]
            omega
          · rw [hcreate]
            rename_i cid_opt hco
            cases cid_opt
            · refine ⟨_, rfl, ?_, Or.inl rfl, ?_⟩
              · show st.created + 1 + st.skipped + st.errors.length
                    = st.created + st.skipped + st.errors.length + 1
                omega
              · intro u hu hmem
                rcases List.mem_append.mp hu with h | h
                · have := hinv u h hmem
                  simp [List.any_append, this]
                · simp only [List.mem_singleton] at h
                  subst h
                  simp [List.any_append]
            · refine ⟨_, rfl, ?_, Or.inl rfl, ?_⟩
              · show st.created + 1 + st.skipped + st.errors.length
                    = st.created + st.skipped + st.errors.length + 1
                omega
              · intro u hu hmem
                simp only [add_teacher_to_classroom_users] at hu
                rcases List.mem_append.mp hu with h | h
                · have := hinv u h hmem
                  simp [List.any_append, this]
                · simp only [List.mem_singleton] at h
                  subst h
                  simp [List.any_append]

theorem teacher_import_loop_ok (sid aid now : Nat) (cg pg : Nat → String)
    (ig : Nat → Nat) (pu : String → Option Nat) (tc : List String) :
    ∀ (rows : List Row) (i : Nat) (st : TeacherImportState),
    (∀ row ∈ rows, getField (normalize_csv_headers row) "email" ∈ tc ∨
        getField (normalize_csv_headers row) "first_name" = "" ∨
        getField (normalize_csv_headers row) "last_name" = "" ∨
        getField (normalize_csv_headers row) "email" = "") →
    teacherInv tc st →
    ∃ st', teacher_import_loop sid aid now cg pg ig pu i rows st = Except.ok st' ∧
      st'.created + st'.skipped + st'.errors.length
        = st.created + st.skipped + st.errors.length + rows.length ∧
      ∃ es, st'.errors = st.errors ++ es ∧ ∀ e ∈ es, rowTagged e := by
  intro rows
  induction rows with
  | nil =>
      intro i st _ _
      exact ⟨st, rfl, by simp, [], by simp, by simp⟩
  | cons row rows ih =>
      intro i st hrows hinv
      obtain ⟨st1, hstep, hcount1, herr1, hinv1⟩ :=
        teacher_import_step_ok sid aid now cg pg ig pu tc st i row
          (hrows row (List.mem_cons_self row rows)) hinv
      obtain ⟨st', hloop, hcount2, es, hes, htag⟩ :=
        ih (i + 1) st1 (fun r hr => hrows r (List.mem_cons_of_mem row hr)) hinv1
      refine ⟨st', ?_, ?_, ?_⟩
      · simp only [teacher_import_loop, hstep]
        exact hloop
      · simp only [List.length_cons]
        omega
      · rcases herr1 with h | ⟨m, h⟩
        · exact ⟨es, by rw [hes, h], htag⟩
        · refine ⟨rowMsg i m :: es, ?_, ?_⟩
          · rw [hes, h]
            simp
          · intro e he
            rcases List.mem_cons.mp he with h' | h'
            · exact h' ▸ rowMsg_tagged i m
            · exact htag e h'

/-- C5: the bulk imports never abort on a single row's problem.  The only
batch-level aborts are the decode failure and the empty table, each
returning the single batch-level error with the store untouched and no row
processed.  On a non-empty table the student importer returns a structured
result whose every error is a per-row "Row N: ..." message, and its row loop
composes (processing `r1 ++ r2` is processing `r1`, then continuing with
`r2` from the resulting state — a row's problem never stops the rest); the
teacher importer always returns `.ok` with a structured result that
accounts for every input row (created + skipped + row errors = row count),
all its errors per-row "Row N: ..." messages. -/
theorem c5_batch_never_aborts (db : DB) (school_id admin_id year now : Nat)
    (sg cg pg : Nat → String) (ig : Nat → Nat) (pu : String → Option Nat) :
    (import_students_from_csv db school_id .decode_failure year sg ig pu
      = ({ created := 0, enrolled := 0, skipped := 0,
           errors := ["Invalid file encoding. Use UTF-8."] }, db)) ∧
    (import_students_from_csv db school_id (.table []) year sg ig pu
      = ({ created := 0, enrolled := 0, skipped := 0,
           errors := ["CSV file is empty"] }, db)) ∧
    (import_teachers_from_csv db school_id admin_id .decode_failure now cg pg ig pu
      = Except.ok
          ({ created := 0, skipped := 0,
             errors := ["Invalid file encoding. Use UTF-8."], invitations := [] }, db)) ∧
    (import_teachers_from_csv db school_id admin_id (.table []) now cg pg ig pu
      = Except.ok
          ({ created := 0, skipped := 0,
             errors := ["CSV file is empty"], invitations := [] }, db)) ∧
    (∀ rows : List Row, rows ≠ [] →
      ∀ e ∈ (import_students_from_csv db school_id (.table rows) year sg ig pu).fst.errors,
        rowTagged e) ∧
    (∀ (r1 r2 : List Row) (i : Nat) (st : StudentImportState),
      student_import_loop pu school_id year sg ig i (r1 ++ r2) st
        = student_import_loop pu school_id year sg ig (i + r1.length) r2
            (student_import_loop pu school_id year sg ig i r1 st)) ∧
    (∀ rows : List Row, ∃ res db2,
      import_teachers_from_csv db school_id admin_id (.table rows) now cg pg ig pu
        = Except.ok (res, db2) ∧
      (rows ≠ [] →
        res.created + res.skipped + res.errors.length = rows.length ∧
        ∀ e ∈ res.errors, rowTagged e)) := by
  refine ⟨rfl, rfl, rfl, rfl, ?_, student_import_loop_append pu school_id year sg ig, ?_⟩
  · intro rows hne e he
    cases rows with
    | nil => exact absurd rfl hne
    | cons r rs =>
        obtain ⟨es, hes, htag⟩ := student_import_loop_errors pu school_id year sg ig
          (r :: rs) 0
          { created := 0, enrolled := 0, skipped := 0, errors := [], seen_emails := [],
            existing_users := get_users_by_emails db (candidate_emails (r :: rs)),
            db := db }
        apply htag
        have he2 : e ∈ (student_import_loop pu school_id year sg ig 0 (r :: rs)
            { created := 0, enrolled := 0, skipped := 0, errors := [], seen_emails := [],
              existing_users := get_users_by_emails db (candidate_emails (r :: rs)),
              db := db }).errors := he
        rw [hes] at he2
        simpa using he2
  · intro rows
    cases rows with
    | nil =>
        exact ⟨{ created := 0, skipped := 0, errors := ["CSV file is empty"],
                 invitations := [] }, db, rfl, fun h => absurd rfl h⟩
    | cons r rs =>
        obtain ⟨st', hloop, hcount, es, hes, htag⟩ :=
          teacher_import_loop_ok school_id admin_id now cg pg ig pu
            (candidate_emails (r :: rs)) (r :: rs) 0
            { created := 0, skipped := 0, errors := [], invitations := [],
              seen_emails := [],
              existing_emails := get_existing_emails db (candidate_emails (r :: rs)),
              db := db }
            (by
              intro row hr
              by_cases hfn : getField (normalize_csv_headers row) "first_name" = ""
              · exact Or.inr (Or.inl hfn)
              by_cases hln : getField (normalize_csv_headers row) "last_name" = ""
              · exact Or.inr (Or.inr (Or.inl hln))
              by_cases hem : getField (normalize_csv_headers row) "email" = ""
              · exact Or.inr (Or.inr (Or.inr hem))
              · exact Or.inl (mem_candidate_emails hr hfn hln hem))
            (teacherInv_init db (candidate_emails (r :: rs)))
        refine ⟨{ created := st'.created, skipped := st'.skipped, errors := st'.errors,
                  invitations := st'.invitations }, st'.db, ?_, fun _ => ⟨?_, ?_⟩⟩
        · simp only [import_teachers_from_csv]
          rw [hloop]
        · show st'.created + st'.skipped + st'.errors.length = (r :: rs).length
          simp only [List.length_cons, List.length_nil] at hcount ⊢
          omega
        · intro e he
          have he2 : e ∈ st'.errors := he
          rw [hes] at he2
          exact htag e (by simpa using he2)

/-- Witness for C5 at concrete inputs: a one-row student batch whose single
row is blank yields the per-row error "Row 2: first_name and last_name
required" (tagged, no abort), and a one-row teacher batch over the Alice
row returns `.ok` with created + skipped + errors accounting for the row. -/
theorem c5_batch_never_aborts_witness :
    rowTagged "Row 2: first_name and last_name required" ∧
    "Row 2: first_name and last_name required"
      ∈ (import_students_from_csv DB.empty 7 (.table [[]]) 2025
          (fun _ => "x") (fun n => n) (fun _ => none)).fst.errors ∧
    ∃ res db2,
      import_teachers_from_csv DB.empty 7 9 (.table [aliceRow]) 0
          (fun _ => "CODE") (fun _ => "pw") (fun n => n) (fun _ => none)
        = Except.ok (res, db2) ∧
      res.created + res.skipped + res.errors.length = 1 ∧
      ∀ e ∈ res.errors, rowTagged e := by
  obtain ⟨-, -, -, -, h5, -, h7⟩ :=
    c5_batch_never_aborts DB.empty 7 9 2025 0 (fun _ => "x") (fun _ => "CODE")
      (fun _ => "pw") (fun n => n) (fun _ => none)
  refine ⟨h5 [[]] (by simp) "Row 2: first_name and last_name required" (by decide),
    by decide, ?_⟩
  obtain ⟨res, db2, heq, himp⟩ := h7 [aliceRow]
  exact ⟨res, db2, heq, (himp (by simp)).1, (himp (by simp)).2⟩

end YouSpeak
